import Mathlib

/-!
Verification development for the gaussian-vrm splat-to-skeleton binding
pipeline.  The definitions below are a shallow embedding, over exact
rational arithmetic, of the JavaScript source in
`src/apps/preprocess/preprocess.js` and `src/gvrm-format/gvrm.js`
(plus the three.js / GLSL library routines those files invoke).

Conventions used throughout:
* JavaScript `number` is modelled as `ℚ`; array indices as `ℕ`/`ℤ`.
* `Math.sqrt` never needs to be evaluated: every use in the source sits
  inside a comparison, and `sqrt s < t`, `sqrt s > t`, `sqrt s ≤ t` are
  translated to the exactly equivalent rational comparisons
  (`0 < t ∧ s < t²`, etc.), using that `s` is always a sum of squares.
* Strict-minimum searches of the source compare Euclidean distances; the
  embedding compares squared distances, which is equivalent because
  `sqrt` is strictly monotone.
* A JavaScript `undefined` flowing into an array slot is modelled as
  `Option.none`; a thrown exception as `Except.error`.
* 4×4 and 3×3 matrices are `Matrix (Fin _) (Fin _) ℚ` with the usual
  mathematical (row, column) indexing.  GLSL source indexes matrices
  column-major (`m[c][r]`); each transcription notes the translation.
-/

set_option maxRecDepth 100000

namespace GVRM

/-- 3-component vector, mirroring `THREE.Vector3` (components are JS
numbers, modelled as `ℚ`). -/
structure V3 where
  x : ℚ
  y : ℚ
  z : ℚ
  deriving DecidableEq, Repr

namespace V3

def add (a b : V3) : V3 := ⟨a.x + b.x, a.y + b.y, a.z + b.z⟩

/-- `THREE.Vector3.subVectors`. -/
def sub (a b : V3) : V3 := ⟨a.x - b.x, a.y - b.y, a.z - b.z⟩

def smul (c : ℚ) (a : V3) : V3 := ⟨c * a.x, c * a.y, c * a.z⟩

/-- `THREE.Vector3.dot`. -/
def dot (a b : V3) : ℚ := a.x * b.x + a.y * b.y + a.z * b.z

/-- `THREE.Vector3.addScaledVector`. -/
def addScaled (a : V3) (b : V3) (s : ℚ) : V3 := a.add (smul s b)

/-- Squared Euclidean distance; the source's `distanceTo` is its square
root, and is only ever used inside comparisons. -/
def dist2 (a b : V3) : ℚ := (sub a b).dot (sub a b)

def zero : V3 := ⟨0, 0, 0⟩

instance : Inhabited V3 := ⟨zero⟩

end V3

abbrev Mat4 := Matrix (Fin 4) (Fin 4) ℚ

abbrev Mat3 := Matrix (Fin 3) (Fin 3) ℚ

/-- `THREE.Vector3.applyMatrix4`: multiply by the 4×4 matrix as the
homogeneous point `(x, y, z, 1)` and scale by `1 / w'` exactly as the
three.js source does (`w = 1 / (e3 x + e7 y + e11 z + e15)`).  In ℚ the
reciprocal of `0` is `0`; the source (IEEE) would produce infinities
there — every call site in the repository uses matrices with
`w' = 1`. -/
def V3.applyMatrix4 (m : Mat4) (v : V3) : V3 :=
  let w := (m 3 0 * v.x + m 3 1 * v.y + m 3 2 * v.z + m 3 3)⁻¹
  ⟨(m 0 0 * v.x + m 0 1 * v.y + m 0 2 * v.z + m 0 3) * w,
   (m 1 0 * v.x + m 1 1 * v.y + m 1 2 * v.z + m 1 3) * w,
   (m 2 0 * v.x + m 2 1 * v.y + m 2 2 * v.z + m 2 3) * w⟩

/-- GLSL `(m * vec4(v, 1.0)).xyz` — like `applyMatrix4` but the shader
takes `.xyz` without dividing by `w`. -/
def V3.mulPointXYZ (m : Mat4) (v : V3) : V3 :=
  ⟨m 0 0 * v.x + m 0 1 * v.y + m 0 2 * v.z + m 0 3,
   m 1 0 * v.x + m 1 1 * v.y + m 1 2 * v.z + m 1 3,
   m 2 0 * v.x + m 2 1 * v.y + m 2 2 * v.z + m 2 3⟩

/-- GLSL `(m * vec4(v, 0.0)).xyz` (direction transform). -/
def V3.mulDir (m : Mat4) (v : V3) : V3 :=
  ⟨m 0 0 * v.x + m 0 1 * v.y + m 0 2 * v.z,
   m 1 0 * v.x + m 1 1 * v.y + m 1 2 * v.z,
   m 2 0 * v.x + m 2 1 * v.y + m 2 2 * v.z⟩

/-- GLSL `mat3(m)` applied to a vector (`m` a `mat4`): same as
`mulDir`. -/
def app3 (m : Mat3) (v : V3) : V3 :=
  ⟨m 0 0 * v.x + m 0 1 * v.y + m 0 2 * v.z,
   m 1 0 * v.x + m 1 1 * v.y + m 1 2 * v.z,
   m 2 0 * v.x + m 2 1 * v.y + m 2 2 * v.z⟩

/-- `THREE.Matrix4.invert` / GLSL `inverse(mat4)`: adjugate divided by
the determinant; three.js sets the matrix to all zeros when the
determinant is zero, which this definition reproduces. -/
def Mat4.invert (m : Mat4) : Mat4 :=
  if m.det = 0 then 0 else m.det⁻¹ • m.adjugate

/-! ### three.js `Triangle.closestPointToPoint`

Verbatim port of the region-based closest-point algorithm used by the
classifiers (three.js `Triangle.closestPointToPoint`). -/

def closestPointToPoint (a b c p : V3) : V3 :=
  let vab := V3.sub b a
  let vac := V3.sub c a
  let vap := V3.sub p a
  let d1 := vab.dot vap
  let d2 := vac.dot vap
  if d1 ≤ 0 ∧ d2 ≤ 0 then a
  else
    let vbp := V3.sub p b
    let d3 := vab.dot vbp
    let d4 := vac.dot vbp
    if d3 ≥ 0 ∧ d4 ≤ d3 then b
    else
      let vc := d1 * d4 - d3 * d2
      if vc ≤ 0 ∧ d1 ≥ 0 ∧ d3 ≤ 0 then
        a.addScaled vab (d1 / (d1 - d3))
      else
        let vcp := V3.sub p c
        let d5 := vab.dot vcp
        let d6 := vac.dot vcp
        if d6 ≥ 0 ∧ d5 ≤ d6 then c
        else
          let vb := d5 * d2 - d1 * d6
          if vb ≤ 0 ∧ d2 ≥ 0 ∧ d6 ≤ 0 then
            a.addScaled vac (d2 / (d2 - d6))
          else
            let va := d3 * d6 - d5 * d4
            if va ≤ 0 ∧ d4 - d3 ≥ 0 ∧ d5 - d6 ≥ 0 then
              b.addScaled (V3.sub c b) ((d4 - d3) / ((d4 - d3) + (d5 - d6)))
            else
              let denom := (va + vb + vc)⁻¹
              (a.addScaled vab (vb * denom)).addScaled vac (vc * denom)

/-! ### three.js `SkinnedMesh.applyBoneTransform` -/

/-- The data of the rigged mesh used by the binder: geometry attributes
(`position`, `skinIndex`, `skinWeight`), the skeleton's bone world
matrices and bind-pose inverses, and the mesh bind matrices. -/
structure SkinnedMeshData where
  positions : List V3
  skinIndex : List (ℕ × ℕ × ℕ × ℕ)
  skinWeight : List (ℚ × ℚ × ℚ × ℚ)
  boneWorlds : List Mat4
  boneInverses : List Mat4
  bindMatrix : Mat4
  bindMatrixInverse : Mat4

/-- One term of `applyBoneTransform`'s accumulation loop: three.js skips
the bone lookup when the weight is zero (so an out-of-range bone index
with zero weight is never read); out-of-range indices with non-zero
weight never occur in well-formed meshes and default to the identity
matrix here. -/
def boneTerm (sm : SkinnedMeshData) (base : V3) (w : ℚ) (bi : ℕ) : V3 :=
  if w ≠ 0 then
    V3.smul w (V3.applyMatrix4 ((sm.boneWorlds.getD bi 1) * (sm.boneInverses.getD bi 1)) base)
  else V3.zero

/-- three.js `SkinnedMesh.applyBoneTransform`: position of vertex
`index` under the current skeleton pose, in mesh-local space. -/
def applyBoneTransform (sm : SkinnedMeshData) (index : ℕ) (vector : V3) : V3 :=
  let si := sm.skinIndex.getD index (0, 0, 0, 0)
  let sw := sm.skinWeight.getD index (0, 0, 0, 0)
  let base := V3.applyMatrix4 sm.bindMatrix vector
  let acc := ((((V3.zero.add (boneTerm sm base sw.1 si.1)).add
      (boneTerm sm base sw.2.1 si.2.1)).add
      (boneTerm sm base sw.2.2.1 si.2.2.1)).add
      (boneTerm sm base sw.2.2.2 si.2.2.2))
  V3.applyMatrix4 sm.bindMatrixInverse acc

/-! ### Capsules and the nearest-capsule scan
(`preprocess.js`, `assignSplatsToBones` / `assignSplatsToPoints`) -/

/-- A bone capsule as the classifiers see it: the geometry's `position`
attribute, the optional triangle `index` (capsules without an index are
skipped by both classifiers), and the capsule's world matrix. -/
structure Capsule where
  positions : List V3
  index? : Option (List ℕ)
  matrixWorld : Mat4

/-- Group an index buffer into triangles (the source iterates
`ii += 3` while `ii < index.count`; a trailing fragment of fewer than
three indices is never present in well-formed geometry). -/
def triplesOf : List ℕ → List (ℕ × ℕ × ℕ)
  | a :: b :: c :: rest => (a, b, c) :: triplesOf rest
  | _ => []

/-- The world-space triangles of one capsule (empty when the geometry
has no index, matching the `if (!index) continue` of the source). -/
def capsuleTriangles (cap : Capsule) : List (V3 × V3 × V3) :=
  match cap.index? with
  | none => []
  | some idx =>
    (triplesOf idx).map fun t =>
      (V3.applyMatrix4 cap.matrixWorld (cap.positions.getD t.1 default),
       V3.applyMatrix4 cap.matrixWorld (cap.positions.getD t.2.1 default),
       V3.applyMatrix4 cap.matrixWorld (cap.positions.getD t.2.2 default))

/-- `d2 < minDistance²` where `none` models the initial
`minDistance = Infinity`. -/
def ltInf (d2 : ℚ) : Option ℚ → Bool
  | none => true
  | some m => decide (d2 < m)

/-- Scan the triangles of capsule `ci`, updating the running
`(minDistance², bestCi)` state exactly as the source's inner loop does
(squared distances replace distances; `sqrt` is strictly monotone). -/
def scanTriangles (target : V3) (tris : List (V3 × V3 × V3)) (ci : ℕ)
    (best : Option ℚ × Option ℕ) : Option ℚ × Option ℕ :=
  tris.foldl (fun acc tri =>
    let cp := closestPointToPoint tri.1 tri.2.1 tri.2.2 target
    let d2 := V3.dist2 target cp
    if ltInf d2 acc.1 then (some d2, some ci) else acc) best

/-- Scan every capsule; `init` is the loop's initial `(minDistance,
bestCi)` state (`(∞, 0)` in `assignSplatsToBones`, `(∞, undefined)` in
the vertex loop of `assignSplatsToPoints`). -/
def scanCapsules (capsules : List Capsule) (target : V3)
    (init : Option ℚ × Option ℕ) : Option ℚ × Option ℕ :=
  capsules.enum.foldl (fun best (p : ℕ × Capsule) =>
    scanTriangles target (capsuleTriangles p.2) p.1 best) init

/-! ### `assignSplatsToBones` (`preprocess.js` lines 24–121) -/

/-- The splat-cloud state the classifiers read. `centers0` are the raw
splat centers (stored as xyz triples in the source); `sceneMatrixWorld`
is `gs.viewer.splatMesh.scenes[0].matrixWorld`; `matrixWorld` is
`gs.matrixWorld`; `splatBoneIndices` is the output of
`assignSplatsToBones` carried on `gs`.  The debug-color writes of the
source touch no state read by any later stage and are omitted. -/
structure GsData where
  centers0 : List V3
  sceneMatrixWorld : Mat4
  matrixWorld : Mat4
  splatBoneIndices : List ℤ

/-- Main loop of `assignSplatsToBones`: `bestCi` is carried across
iterations (the `fast` path reuses the previous exact result). -/
def assignSplatsToBonesAux (capsules : List Capsule) (cbi : List ℤ)
    (gs : GsData) (fast : Bool) : ℕ → ℕ → List ℤ
  | i, bestCi =>
    if _h : i < gs.centers0.length then
      if fast ∧ i % 10 ≠ 0 then
        cbi.getD bestCi 0 :: assignSplatsToBonesAux capsules cbi gs fast (i + 1) bestCi
      else
        let target := V3.applyMatrix4 gs.sceneMatrixWorld (gs.centers0.getD i default)
        let best := (scanCapsules capsules target (none, some 0)).2.getD 0
        cbi.getD best 0 :: assignSplatsToBonesAux capsules cbi gs fast (i + 1) best
    else []
  termination_by i _ => gs.centers0.length - i

/-- `assignSplatsToBones` (`preprocess.js` line 24): returns the
`splatBoneIndices` array it pushes onto `gs`.  With an empty capsule
set (`isCliMode`) every splat gets the default bone index 0. -/
def assignSplatsToBones (capsules : List Capsule) (cbi : List ℤ)
    (gs : GsData) (fast : Bool := false) : List ℤ :=
  if capsules.length = 0 then
    List.replicate gs.centers0.length 0
  else
    assignSplatsToBonesAux capsules cbi gs fast 0 0

/-! ### `assignSplatsToPoints` (`preprocess.js` lines 124–280) -/

/-- The mesh/scene state `assignSplatsToPoints` reads from
`character`. -/
structure CharacterData where
  skinned : SkinnedMeshData
  sceneMatrixWorld : Mat4

/-- The per-bone vertex pools (`boneVertexIndices` in the source): an
association list keyed by bone index.  A JS object keyed by integers is
used in the source; only keyed lookup and per-key append are performed
on it, so the association-list representation is faithful. -/
abbrev Pools := List (ℤ × List ℕ)

/-- `Object.values(capsuleBoneIndex).forEach(v => pools[v] = [])`:
one empty pool per distinct bone value (re-assigning `[]` to a key that
is already present is a no-op at this point). -/
def initPools (cbi : List ℤ) : Pools :=
  cbi.foldl (fun acc v => if (acc.lookup v).isSome then acc else acc ++ [(v, [])]) []

/-- `pools[k].push(i)`; `none` when `k` is not a key, which in the
source is a `TypeError` (`undefined.push`). -/
def poolPush (pools : Pools) (k : ℤ) (i : ℕ) : Option Pools :=
  match pools with
  | [] => none
  | (k', l) :: rest =>
    if k' = k then some ((k', l ++ [i]) :: rest)
    else (poolPush rest k i).map ((k', l) :: ·)

/-- First loop of `assignSplatsToPoints`: classify every mesh vertex to
its nearest capsule (vertices are compared in posed world space:
`applyBoneTransform` then the character scene's world matrix) and group
the vertex indices by the capsule's bone.  `Except.error` models the
`TypeError` raised when `bestCi` is still `undefined` after the scan
(every capsule lacking an index buffer) or `capsuleBoneIndex[bestCi]`
is not a pool key. -/
def buildPools (ch : CharacterData) (capsules : List Capsule) (cbi : List ℤ) :
    Except Unit Pools :=
  (List.range ch.skinned.positions.length).foldlM (fun pools i =>
    let vertex := ch.skinned.positions.getD i default
    let skinnedVertex := V3.applyMatrix4 ch.sceneMatrixWorld
      (applyBoneTransform ch.skinned i vertex)
    match (scanCapsules capsules skinnedVertex (none, none)).2 with
    | none => Except.error ()
    | some bestCi =>
      match cbi.get? bestCi with
      | none => Except.error ()
      | some k =>
        match poolPush pools k i with
        | none => Except.error ()
        | some ps => Except.ok ps) (initPools cbi)

/-- Loop-index values of `for (vi = 0; vi < n; vi += skip)`
(for `skip ≥ 1`). -/
def strideIndices (n skip : ℕ) : List ℕ :=
  (List.range n).filter (fun v => v % skip = 0)

/-- Second loop body of `assignSplatsToPoints`: position (within
`pool`) of the pool vertex nearest to `target` in posed world space,
visiting every `skip`-th pool entry; `bestVi` starts at 0. -/
def nearestPoolPos (ch : CharacterData) (pool : List ℕ) (target : V3)
    (skip : ℕ) : ℕ :=
  ((strideIndices pool.length skip).foldl (fun (best : Option ℚ × ℕ) vi =>
      let vertexIndex := pool.getD vi 0
      let vertex := ch.skinned.positions.getD vertexIndex default
      let skinnedVertex := V3.applyMatrix4 ch.sceneMatrixWorld
        (applyBoneTransform ch.skinned vertexIndex vertex)
      let d2 := V3.dist2 skinnedVertex target
      if ltInf d2 best.1 then (some d2, vi) else best) (none, 0)).2

/-- The rest-space relative offset recorded for one bound splat
(`preprocess.js` lines 266–276): the bound vertex is taken at its
*posed* position (`applyBoneTransform`, without the scene world
matrix), and the raw splat center is carried through the splat scene's
world matrix, `gs.matrixWorld`, and the inverse of the character
scene's world matrix. -/
def relativePoseOf (ch : CharacterData) (gs : GsData) (vertexIndex : ℕ)
    (center0 : V3) : V3 :=
  let vertex := applyBoneTransform ch.skinned vertexIndex
    (ch.skinned.positions.getD vertexIndex default)
  let c1 := V3.applyMatrix4 gs.sceneMatrixWorld center0
  let c2 := V3.applyMatrix4 gs.matrixWorld c1
  let c3 := V3.applyMatrix4 (Mat4.invert ch.sceneMatrixWorld) c2
  V3.sub c3 vertex

/-- Result of `assignSplatsToPoints`: the two arrays it pushes onto
`gs`, plus the vertex pools (exposed for the bone-consistency
statements).  `splatVertexIndices` entries are `none` when the source
pushes `undefined` (empty pool); `splatRelativePoses` is the flat
3-per-splat array, with `none` modelling the `NaN`s that an `undefined`
vertex index produces. -/
structure BindResult where
  splatVertexIndices : List (Option ℕ)
  splatRelativePoses : List (Option ℚ)
  pools : Pools
  deriving DecidableEq, Repr

/-- In-order fallible map, aborting at the first error — the evaluation
order of the source's `for` loops with `throw`. -/
def mapExcept (f : ℕ → Except Unit α) : List ℕ → Except Unit (List α)
  | [] => Except.ok []
  | x :: xs => do
    let a ← f x
    let as ← mapExcept f xs
    Except.ok (a :: as)

/-- Body of the splat→vertex loop for splat `i`: look up the pool of
the splat's already-assigned bone and return the pool entry of its
nearest vertex (`undefined` — `none` — when the pool is empty). -/
def bindSplat (ch : CharacterData) (gs : GsData) (pools : Pools)
    (skip : ℕ) (i : ℕ) : Except Unit (Option ℕ) :=
  let target := V3.applyMatrix4 gs.sceneMatrixWorld (gs.centers0.getD i default)
  match gs.splatBoneIndices.get? i with
  | none => Except.error ()
  | some b =>
    match pools.lookup b with
    | none => Except.error ()
    | some pool =>
      let bestVi := nearestPoolPos ch pool target skip
      Except.ok (pool.get? bestVi)

/-- One splat's three `splatRelativePoses` entries (loop body of
`preprocess.js` lines 265–277): `none` (`NaN` in the source) when the
splat's recorded vertex is `undefined`. -/
def bindPoseChunk (ch : CharacterData) (gs : GsData) (svi : List (Option ℕ))
    (i : ℕ) : List (Option ℚ) :=
  match svi.getD i none with
  | some vi =>
    let r := relativePoseOf ch gs vi (gs.centers0.getD i default)
    [some r.x, some r.y, some r.z]
  | none => [none, none, none]

/-- The flat `splatRelativePoses` array built by the third loop of
`assignSplatsToPoints`: three entries per splat. -/
def bindPoses (ch : CharacterData) (gs : GsData) (svi : List (Option ℕ)) :
    List (Option ℚ) :=
  (List.range gs.centers0.length).flatMap (bindPoseChunk ch gs svi)

/-- `assignSplatsToPoints` (`preprocess.js` line 124).  The
degenerate-mesh branch (`position.count <= 3`, CLI mode) assigns vertex
0 and zero offsets to every splat.  Otherwise: build the per-bone
vertex pools, bind every splat to the nearest vertex of its own bone's
pool, then record the relative offsets. -/
def assignSplatsToPoints (ch : CharacterData) (gs : GsData)
    (capsules : List Capsule) (cbi : List ℤ) (fast : Bool := false) :
    Except Unit BindResult :=
  if ch.skinned.positions.length ≤ 3 then
    Except.ok ⟨List.replicate gs.centers0.length (some 0),
               List.replicate (3 * gs.centers0.length) (some 0), []⟩
  else
    match buildPools ch capsules cbi with
    | Except.error e => Except.error e
    | Except.ok pools =>
      match mapExcept (bindSplat ch gs pools (if fast then 3 else 1))
          (List.range gs.centers0.length) with
      | Except.error e => Except.error e
      | Except.ok svi => Except.ok ⟨svi, bindPoses ch gs svi, pools⟩

/-! ### Stated properties and concrete scenes for the binding stage -/

/-- Modelled from the spec's words (§4.5 / C3): the relative offset the
spec describes — splat center in mesh-local space minus the bound
vertex's *un-posed* (raw `position` attribute, skin transform removed)
position.  Compare with `relativePoseOf`, which is what the code
computes (the *posed* vertex). -/
def specRelativeOffset (ch : CharacterData) (gs : GsData)
    (vertexIndex : ℕ) (center0 : V3) : V3 :=
  let c1 := V3.applyMatrix4 gs.sceneMatrixWorld center0
  let c2 := V3.applyMatrix4 gs.matrixWorld c1
  let c3 := V3.applyMatrix4 (Mat4.invert ch.sceneMatrixWorld) c2
  V3.sub c3 (ch.skinned.positions.getD vertexIndex default)

/-- Concrete capsule near the origin (counterexample scenes). -/
def capNear : Capsule := ⟨[⟨0,0,0⟩, ⟨0,0,1⟩, ⟨0,1,0⟩], some [0,1,2], 1⟩

/-- Concrete capsule far away on the x axis. -/
def capFar : Capsule := ⟨[⟨100,0,0⟩, ⟨100,0,1⟩, ⟨100,1,0⟩], some [0,1,2], 1⟩

/-- A 4-vertex mesh near the origin, all vertices fully weighted to
bone 0, identity skeleton. -/
def smCE : SkinnedMeshData :=
  ⟨[⟨0,0,0⟩, ⟨0,1,0⟩, ⟨0,0,1⟩, ⟨0,1,1⟩],
   [(0,0,0,0), (0,0,0,0), (0,0,0,0), (0,0,0,0)],
   [(1,0,0,0), (1,0,0,0), (1,0,0,0), (1,0,0,0)],
   [1], [1], 1, 1⟩

def chCE : CharacterData := ⟨smCE, 1⟩

/-- Mesh for the C3 scene: same four vertices, but bone 0's world
matrix translates by (1,0,0), so posed vertex positions differ from the
raw (un-posed) ones. -/
def smC3 : SkinnedMeshData :=
  ⟨[⟨0,0,0⟩, ⟨0,1,0⟩, ⟨0,0,1⟩, ⟨0,1,1⟩],
   [(0,0,0,0), (0,0,0,0), (0,0,0,0), (0,0,0,0)],
   [(1,0,0,0), (1,0,0,0), (1,0,0,0), (1,0,0,0)],
   [!![1,0,0,1; 0,1,0,0; 0,0,1,0; 0,0,0,1]], [1], 1, 1⟩

def chC3 : CharacterData := ⟨smC3, 1⟩

/-- Capsule sitting at the posed vertex positions (x = 1). -/
def capC3 : Capsule := ⟨[⟨1,0,0⟩, ⟨1,0,1⟩, ⟨1,1,0⟩], some [0,1,2], 1⟩

/-- One splat at (1/2, 0, 0), already assigned bone 3 (the capsule's
bone). -/
def gsC3 : GsData := ⟨[⟨1/2,0,0⟩], 1, 1, [3]⟩

/-- A well-behaved one-splat scene (witness instance): splat at the
origin, assigned bone 5 (the near capsule), whose pool is
non-empty. -/
def gsW : GsData := ⟨[⟨0,0,0⟩], 1, 1, [5]⟩

/-- The binding result `assignSplatsToPoints` produces on the witness
scene (`chCE`, `gsW`, both capsules). -/
def bindResW : BindResult :=
  ⟨[some 0], [some 0, some 0, some 0], [(5, [0,1,2,3]), (7, [])]⟩

/-! ### `GVRM.sortSplatsByBones` / `GVRM.updateExtraData`
(`gvrm.js` lines 491–544) and the save/load round trip -/

/-- The persisted binding metadata (`data.json` of the archive).
`GVRM.save` serializes the three arrays verbatim (JSON round-trips JS
numbers exactly); `GVRM.load` parses them back and then applies
`sortSplatsByBones`. -/
structure ExtraData where
  splatVertexIndices : List ℤ
  splatBoneIndices : List ℤ
  splatRelativePoses : List ℚ
  deriving DecidableEq, Repr

/-- One step of `sortSplatsByBones`' loop: append splat `i` to the
group of bone `b`, creating the group (with the next dense scene id —
the list position) when the bone is seen for the first time. -/
def addToGroups : List (ℤ × List ℕ) → ℤ → ℕ → List (ℤ × List ℕ)
  | [], b, i => [(b, [i])]
  | (b', g) :: rest, b, i =>
    if b' = b then (b', g ++ [i]) :: rest
    else (b', g) :: addToGroups rest b i

def buildGroupsAux (acc : List (ℤ × List ℕ)) : List (ℤ × ℕ) → List (ℤ × List ℕ)
  | [] => acc
  | (b, i) :: rest => buildGroupsAux (addToGroups acc b i) rest

/-- The grouping computed by `GVRM.sortSplatsByBones` (`gvrm.js` line
491) from `splatBoneIndices`: an association list in first-appearance
order whose `k`-th entry is `(bone, sceneSplatIndices[k])` — the list
position is the dense scene id assigned through `boneSceneMap`. -/
def sortGroups (bones : List ℤ) : List (ℤ × List ℕ) :=
  buildGroupsAux [] (bones.enum.map (fun p => (p.2, p.1)))

/-- Splat indices of all scenes concatenated in scene order — the
order in which `splitPLY` + `initGS` lay out the reloaded splat cloud,
and the order in which `updateExtraData` re-emits the arrays. -/
def scenePerm (bones : List ℤ) : List ℕ :=
  ((sortGroups bones).map Prod.snd).join

/-- One step of collecting distinct bones in first-appearance order. -/
def fsStep (ks : List ℤ) (b : ℤ) : List ℤ :=
  if b ∈ ks then ks else ks ++ [b]

/-- Spec-side description of the dense-id assignment: the distinct
bone indices in order of first appearance. -/
def firstSeen (bones : List ℤ) : List ℤ :=
  bones.foldl fsStep []

/-- The three floats of splat `j` in a flat `splatRelativePoses`
array. -/
def relPoseTriple (p : List ℚ) (j : ℕ) : List ℚ :=
  [p.getD (3 * j) 0, p.getD (3 * j + 1) 0, p.getD (3 * j + 2) 0]

/-- `GVRM.updateExtraData` (`gvrm.js` line 518): re-emit the three
binding arrays in scene order (outer loop over scenes in ascending
dense id, inner loop over that scene's splat indices).  The
`splatIndices` array the source builds first is dead code and is
omitted. -/
def updateExtraData (ed : ExtraData) (groups : List (List ℕ)) : ExtraData :=
  { splatVertexIndices :=
      groups.flatMap (fun g => g.map (fun j => ed.splatVertexIndices.getD j 0)),
    splatBoneIndices :=
      groups.flatMap (fun g => g.map (fun j => ed.splatBoneIndices.getD j 0)),
    splatRelativePoses :=
      groups.flatMap (fun g => g.flatMap (relPoseTriple ed.splatRelativePoses)) }

/-- `GVRM.sortSplatsByBones` (`gvrm.js` line 491): returns the mutated
`extraData`, `sceneSplatIndices` (as the list of groups in dense-id
order) and `boneSceneMap` (as the list of bones in dense-id order: the
`k`-th entry is the bone mapped to scene id `k`). -/
def sortSplatsByBones (ed : ExtraData) : ExtraData × List (List ℕ) × List ℤ :=
  (updateExtraData ed ((sortGroups ed.splatBoneIndices).map Prod.snd),
   (sortGroups ed.splatBoneIndices).map Prod.snd,
   (sortGroups ed.splatBoneIndices).map Prod.fst)

/-- `PLYParser.splitPLY` + `GVRM.initGS` on load: the reloaded splat
cloud is the concatenation of the per-scene clouds, i.e. the original
cloud reordered by `scenePerm` (`sceneVertices =
indices.map(i => plyData.vertices[i])`, scenes in ascending dense
id). -/
def reorderCloud {α : Type} [Inhabited α] (bones : List ℤ) (cloud : List α) :
    List α :=
  (scenePerm bones).map (fun j => cloud.getD j default)

/-! ### `calculateHeights` (`preprocess.js` lines 295–435) -/

/-- `Math.round` (round half toward +∞). -/
def jsRound (x : ℚ) : ℤ := ⌊x + 1/2⌋

/-- `Math.sqrt s < t` for `s ≥ 0`, as an exact rational comparison. -/
def sqrtLt (s t : ℚ) : Bool := decide (0 < t) && decide (s < t * t)

/-- `Math.sqrt s ≤ t` for `s ≥ 0`. -/
def sqrtLe (s t : ℚ) : Bool := decide (0 ≤ t) && decide (s ≤ t * t)

/-- `Math.sqrt s > t` for `s ≥ 0`. -/
def sqrtGt (s t : ℚ) : Bool := decide (t < 0) || decide (t * t < s)

/-- Squared horizontal distance of a point-cloud vertex from a
centroid. -/
def distXZ2 (v : V3) (cx cz : ℚ) : ℚ := (v.x - cx) ^ 2 + (v.z - cz) ^ 2

structure Heights where
  hmin : ℚ
  hmax : ℚ
  deriving DecidableEq, Repr

structure Centroid where
  cx : ℚ
  cz : ℚ
  deriving DecidableEq, Repr

/-- The calibration hints (`hints.kneeHeight`); the JS truthiness check
`hints && hints.kneeHeight` treats a 0 knee height as absent. -/
structure CalcHints where
  kneeHeight : Option ℚ
  deriving DecidableEq, Repr

/-- Outcome of a single `calculateHeights` body evaluation: an
exception (`err 1` = "No valid vertices found", `err 2` =
"maxDifference is -Infinity"), success, or acceptance-threshold failure
(handing the just-computed heights to the retry). -/
inductive StepResult where
  | err : ℕ → StepResult
  | ok : Heights → ℚ → StepResult
  | fail : Heights → StepResult
  deriving DecidableEq, Repr

/-- The radius-filtered vertex set: vertices within `distY` of y = 0
and inside the search column, falling back to the plain `|y| < distY`
filter when the column is empty ("SAM 3D Body fix"). -/
def radiusFilteredOf (vertices : List V3) (centroid : Centroid)
    (distXZ thresh distY : ℚ) : List V3 :=
  let primary := vertices.filter (fun v =>
    decide (|v.y| < distY) &&
    sqrtLt (distXZ2 v centroid.cx centroid.cz) (distXZ * thresh))
  if primary.length = 0 then vertices.filter (fun v => decide (|v.y| < distY))
  else primary

/-- The `hints.kneeHeight` skip condition of the floor-search loop. -/
def kneeSkip (hints : Option CalcHints) (currentY : ℤ) : Bool :=
  match hints with
  | some h =>
    match h.kneeHeight with
    | some k => decide (k ≠ 0) && decide ((currentY : ℚ) / 100 > k)
    | none => false
  | none => false

/-- One fold step of the floor-search loop over window position `i`:
state is `(maxDifference?, floorY)` (`none` models the initial
`-Infinity`). -/
def floorStep (hints : Option CalcHints) (sorted : List (ℤ × ℕ))
    (st : Option ℤ × ℤ) (i : ℕ) : Option ℤ × ℤ :=
  let currentY := (sorted.getD i (0, 0)).1
  if kneeSkip hints currentY then st
  else
    let lowerSum := (List.range 5).foldl
      (fun acc j => acc + ((sorted.getD (i - 5 + j) (0, 0)).2 : ℤ)) 0
    let upperSum := (List.range 5).foldl
      (fun acc j => acc + ((sorted.getD (i + j) (0, 0)).2 : ℤ)) 0
    let difference := upperSum - lowerSum
    if (match st.1 with
        | none => true
        | some m => decide (difference > m)) then
      (some difference, (sorted.getD (i + 1) (0, 0)).1)
    else st

/-- The histogram / floor-search / density-scan part of the
`calculateHeights` body (lines 327–391): everything that depends only
on the radius-filtered vertex set.  Returns the computed heights, or
the thrown errors (`error 1` = "No valid vertices found", `error 2` =
"maxDifference is -Infinity"). -/
def calcCore (hints : Option CalcHints) (radiusFiltered : List V3) :
    Except ℕ Heights :=
  let yCoords := radiusFiltered.map (fun v => jsRound (-v.y * 100))
  if yCoords.length = 0 then Except.error 1
  else
    let minY := (yCoords.foldl min (yCoords.headD 0)) - 5
    let maxY := (yCoords.foldl max (yCoords.headD 0)) + 5
    let sorted := (List.range ((maxY - minY).toNat + 1)).map
      (fun k => (minY + k, yCoords.count (minY + k)))
    let result := ((List.range (sorted.length - 9)).map (· + 5)).foldl
      (floorStep hints sorted) (none, minY + 5)
    match result.1 with
    | none => Except.error 2
    | some _ =>
      let floorY := result.2
      let emptySpaceY := ((sorted.find? (fun p =>
          decide ((p.1 : ℚ) / 100 > (floorY : ℚ) / 100 + 3/10) &&
          decide ((p.2 : ℚ) < (radiusFiltered.length : ℚ) * (1/4000)))).map
        Prod.fst).getD (maxY - 5)
      Except.ok ⟨(floorY : ℚ) / 100, (emptySpaceY : ℚ) / 100⟩

/-- The validation sample (lines 394–398): vertices inside the search
radius within the (5%-trimmed) height band. -/
def testFilteredOf (vertices : List V3) (centroid : Centroid)
    (distXZ : ℚ) (h : Heights) : List V3 :=
  vertices.filter (fun v =>
    sqrtLt (distXZ2 v centroid.cx centroid.cz) distXZ &&
    decide ((h.hmax - h.hmin) * (5/100) + h.hmin < -v.y) &&
    decide (-v.y < h.hmax))

/-- The outer 2 cm annulus of the validation sample (lines 404–408). -/
def outerRingOf (t : List V3) (centroid : Centroid) (distXZ : ℚ) :
    List V3 :=
  t.filter (fun v =>
    sqrtGt (distXZ2 v centroid.cx centroid.cz) (distXZ - 2/100) &&
    sqrtLe (distXZ2 v centroid.cx centroid.cz) distXZ)

/-- The acceptance-threshold check of lines 419–421: true when the
measurement must be rejected (fewer than 10,000 points in band, height
difference ≤ 0.3, or outer-annulus ratio above 0.025%). -/
def validationFails (vertices : List V3) (centroid : Centroid)
    (distXZ : ℚ) (h : Heights) : Bool :=
  let t := testFilteredOf vertices centroid distXZ h
  let outer := outerRingOf t centroid distXZ
  decide (t.length < 10000) || decide (h.hmax - h.hmin ≤ 3/10) ||
    (decide (outer.length > 10) &&
     decide ((outer.length : ℚ) / (t.length : ℚ) > 1/4000))

/-- A single evaluation of the `calculateHeights` body (`preprocess.js`
lines 295–432) at a fixed search radius, up to (but not including) the
retry/throw decision of lines 422–431.  The visualization-only
`heights`/`circle` bookkeeping of the source carries no data into the
computation and is omitted. -/
def calcStep (hints : Option CalcHints) (vertices : List V3)
    (centroid : Centroid) (distXZ thresh distY : ℚ) : StepResult :=
  match calcCore hints (radiusFilteredOf vertices centroid distXZ thresh distY) with
  | Except.error e => StepResult.err e
  | Except.ok h =>
    if validationFails vertices centroid distXZ h then StepResult.fail h
    else StepResult.ok h distXZ

/-- `calculateHeights`: evaluate the body; on threshold failure grow
the radius by 0.1 and recurse while `distXZ < 3.0`, else throw
`[ErrorID 6]` (`Except.error 6`).  The incoming `heights` argument is
only used by the source for drawing the search circle and is carried
but never read. -/
def calculateHeights (hints : Option CalcHints) (vertices : List V3)
    (centroid : Centroid) (thresh distY : ℚ) :
    Option Heights → ℚ → Except ℕ (Heights × ℚ)
  | _heights, distXZ =>
    match calcStep hints vertices centroid distXZ thresh distY with
    | StepResult.err e => Except.error e
    | StepResult.ok h d => Except.ok (h, d)
    | StepResult.fail h =>
      if _hd : distXZ < 3 then
        calculateHeights hints vertices centroid thresh distY (some h)
          (distXZ + 1/10)
      else Except.error 6
  termination_by _heights distXZ => (⌈(3 - distXZ) * 10⌉).toNat
  decreasing_by
    have h1 : (0 : ℚ) < (3 - distXZ) * 10 := by
      have : (0 : ℚ) < 3 - distXZ := by linarith
      linarith
    have h2 : (0 : ℤ) < ⌈(3 - distXZ) * 10⌉ := Int.ceil_pos.mpr h1
    have h3 : (3 - (distXZ + 1/10)) * 10 = (3 - distXZ) * 10 - 1 := by ring
    rw [h3, Int.ceil_sub_one]
    omega

/-- A 12-point cloud (fewer than 10,000 points) that passes the
histogram stage at every radius but always fails the acceptance
thresholds. -/
def ptsC7 : List V3 :=
  List.replicate 12 ⟨0, -(1/2), 0⟩

/-! ### The `preprocess` retry policy
(`preprocess.js` lines 996–1025 and 1360–1395) -/

/-- The hints object of `preprocess`: the calibration knee-height hint
plus the retry counter managed by the catch block (`hints.retry` is
absent — 0, falsy — until first set). -/
structure PHints where
  kneeHeight : Option ℚ
  retry : ℕ
  deriving DecidableEq, Repr

/-- Abstract outcome of one attempt of the `preprocess` try body.  The
body performs rendering, pose detection and the calibration pipeline;
for the retry-policy claims only which exception path it takes
matters, so it is abstracted as an environment-provided outcome per
attempt. -/
inductive BodyOutcome where
  | ok
  | groundFail (kneeHeight : ℚ)
  | otherFail
  deriving DecidableEq, Repr

/-- The hint mutation the ground check performs just before throwing
`[ErrorID 3]` (lines 1010–1017): on a run that already has hints,
clear them (`hints = null`, "no retry"); otherwise create
`{ kneeHeight }`. -/
def groundMutate (hints : Option PHints) (kh : ℚ) : Option PHints :=
  match hints with
  | some _ => none
  | none => some ⟨some kh, 0⟩

/-- The retry-counter update of the catch block (lines 1361–1365):
`if (hints && !hints.retry) hints.retry = 1;
 else if (hints && hints.retry) hints.retry += 1;`. -/
def bumpRetry (hints : Option PHints) : Option PHints :=
  match hints with
  | none => none
  | some h =>
    if h.retry = 0 then some { h with retry := 1 }
    else some { h with retry := h.retry + 1 }

/-- Result of a whole `preprocess` invocation: whether it succeeded,
how many body attempts were made, and whether `saveError` wrote the
diagnostic error record (the structured-error return path). -/
structure PreprocessResult where
  success : Bool
  attempts : ℕ
  errorSaved : Bool
  deriving DecidableEq, Repr

/-- Termination measure of the retry recursion: the counter can only
climb to 1 before retries stop. -/
def retryBudget : Option PHints → ℕ
  | none => 2
  | some h => 2 - min h.retry 2

/-- Control skeleton of `preprocess` (lines 780–1396): run the body
(attempt `n` has outcome `outcomes n`); on a thrown error apply the
ground-check hint mutation (when the ground check was what failed)
and the catch block's retry-counter update, then recurse — one retry —
exactly when hints survive with `retry ≤ 1`; otherwise `saveError`
writes the diagnostic record and the structured error is returned. -/
def preprocessRun (outcomes : ℕ → BodyOutcome) :
    ℕ → Option PHints → PreprocessResult
  | n, hints =>
    match outcomes n with
    | BodyOutcome.ok => ⟨true, 1, false⟩
    | BodyOutcome.groundFail kh =>
      match hmu : bumpRetry (groundMutate hints kh) with
      | some h =>
        if hr : h.retry ≤ 1 then
          let r := preprocessRun outcomes (n + 1) (some h)
          ⟨r.success, r.attempts + 1, r.errorSaved⟩
        else ⟨false, 1, true⟩
      | none => ⟨false, 1, true⟩
    | BodyOutcome.otherFail =>
      match hmu : bumpRetry hints with
      | some h =>
        if hr : h.retry ≤ 1 then
          let r := preprocessRun outcomes (n + 1) (some h)
          ⟨r.success, r.attempts + 1, r.errorSaved⟩
        else ⟨false, 1, true⟩
      | none => ⟨false, 1, true⟩
  termination_by n hints => retryBudget hints
  decreasing_by
  · cases hints with
    | none =>
      simp only [groundMutate, bumpRetry, if_true, Option.some.injEq] at hmu
      subst hmu
      simp [retryBudget]
    | some h0 =>
      simp [groundMutate, bumpRetry] at hmu
  · cases hints with
    | none => simp [bumpRetry] at hmu
    | some h0 =>
      rw [bumpRetry] at hmu
      by_cases h00 : h0.retry = 0
      · rw [if_pos h00] at hmu
        cases hmu
        simp [retryBudget, h00]
      · rw [if_neg h00] at hmu
        cases hmu
        simp only [retryBudget] at hr ⊢
        omega

/-! ### The runtime deformer shader (`gvrm.js` `gsCustomizeMaterial`,
lines 547–793)

The vertex-shader patch reads the bound vertex's rest position, skin
weights and the splat's stored relative offset from data textures,
forms `skinMatrix0` (bind-time) and `skinMatrix` (current pose) — both
of the shape `bindMatrixInverse * Σ wᵢ·boneMatᵢ * bindMatrix`, the
current one produced by the three.js `skinnormal_vertex` chunk — poses
the vertex and moves the splat with it.  GLSL `mat3`/`mat4`
constructors are column-major: the GLSL entry `m[c][r]` is the
mathematical entry in row `r`, column `c`; the definitions below are
written against true row/column indices. -/

/-- GLSL `mat3(m)` for a `mat4` `m`: the upper-left 3×3 block. -/
def Mat4.toMat3 (m : Mat4) : Mat3 :=
  Matrix.of fun i j => m i.castSucc j.castSucc

/-- An exact-arithmetic stand-in for the shader's `vec4` quaternion:
the quaternion represented is `(x, y, z, w) / √r`.  Every branch of
the shader's `quatFromMat3` produces components of this shape with
`x y z w r` rational in the matrix entries, so the
`quatFromMat3` → `mat3FromQuat` composite below is exact — all square
roots cancel. -/
structure SQuat where
  x : ℚ
  y : ℚ
  z : ℚ
  w : ℚ
  r : ℚ
  deriving DecidableEq, Repr

/-- The shader's `quatFromMat3` (gvrm.js lines 646–676), with the GLSL
entry `m[c][r]` translated to the row/column entry `m r c`.  In the
first branch the code sets `s = 0.5 / sqrt(trace + 1.0)`, so every
component is a rational divided by `2·√(trace+1)`; here
`r = trace + 1` carries the square of the common denominator `√r`,
and similarly for the other branches where `s = 2·√u`. -/
def quatFromMat3 (m : Mat3) : SQuat :=
  let trace := m 0 0 + m 1 1 + m 2 2
  if 0 < trace then
    ⟨(m 1 2 - m 2 1) / 2, (m 2 0 - m 0 2) / 2, (m 0 1 - m 1 0) / 2,
     (trace + 1) / 2, trace + 1⟩
  else if m 1 1 < m 0 0 ∧ m 2 2 < m 0 0 then
    let u := 1 + m 0 0 - m 1 1 - m 2 2
    ⟨u / 2, (m 1 0 + m 0 1) / 2, (m 2 0 + m 0 2) / 2, (m 1 2 - m 2 1) / 2, u⟩
  else if m 2 2 < m 1 1 then
    let u := 1 + m 1 1 - m 0 0 - m 2 2
    ⟨(m 1 0 + m 0 1) / 2, u / 2, (m 2 1 + m 1 2) / 2, (m 2 0 - m 0 2) / 2, u⟩
  else
    let u := 1 + m 2 2 - m 0 0 - m 1 1
    ⟨(m 2 0 + m 0 2) / 2, (m 2 1 + m 1 2) / 2, u / 2, (m 0 1 - m 1 0) / 2, u⟩

/-- The shader's hardcoded fix-up `tempQuat.y = -tempQuat.y;`
(gvrm.js line 783). -/
def negY (q : SQuat) : SQuat := ⟨q.x, -q.y, q.z, q.w, q.r⟩

/-- The shader's `mat3FromQuat` (gvrm.js lines 692–704): with the
represented quaternion `(x,y,z,w)/√r` the products `x·x2`, `x·y2`, …
are `2x²/r`, `2xy/r`, …, all rational; the GLSL column-major
constructor makes each argument triple a *column*, transcribed here
into rows. -/
def mat3FromQuat (q : SQuat) : Mat3 :=
  let xx := 2 * q.x * q.x / q.r
  let xy := 2 * q.x * q.y / q.r
  let xz := 2 * q.x * q.z / q.r
  let yy := 2 * q.y * q.y / q.r
  let yz := 2 * q.y * q.z / q.r
  let zz := 2 * q.z * q.z / q.r
  let wx := 2 * q.w * q.x / q.r
  let wy := 2 * q.w * q.y / q.r
  let wz := 2 * q.w * q.z / q.r
  !![1 - (yy + zz), xy + wz, xz - wy;
     xy - wz, 1 - (xx + zz), yz + wx;
     xz + wy, yz - wx, 1 - (xx + yy)]

/-- gvrm.js line 765: `vec3 skinnedRelativePos = vec4( skinMatrix *
inverse(skinMatrix0) * vec4( relativePos, 0.0 ) ).xyz;`. -/
def skinnedRelativePos (skinMatrix skinMatrix0 : Mat4)
    (relativePos : V3) : V3 :=
  V3.mulDir (skinMatrix * Mat4.invert skinMatrix0) relativePos

/-- The patched splat-center computation (gvrm.js lines 744–766): the
bound vertex's rest position `transformed` is posed by the current
skin matrix (the three.js `skinning_vertex` chunk, which is not part
of this repository, computes `transformed = (bindMatrixInverse *
Σ wᵢ·boneMatᵢ * bindMatrix * vec4(transformed, 1)).xyz`, i.e.
`skinMatrix` applied as a point transform), the re-oriented relative
offset is added, and the sum is taken to world space:
`splatCenter = (meshMatrixWorld * vec4(transformed +
skinnedRelativePos, 1.0)).xyz`. -/
def shaderSplatCenter (meshMatrixWorld skinMatrix skinMatrix0 : Mat4)
    (restPos relativePos : V3) : V3 :=
  V3.mulPointXYZ meshMatrixWorld
    ((V3.mulPointXYZ skinMatrix restPos).add
      (skinnedRelativePos skinMatrix skinMatrix0 relativePos))

/-- gvrm.js lines 779–781: `relativeRotation = transpose(gsRotation0) *
skinRotationMatrix * gsRotation0` with `gsRotation0 = mat3(gsMatrix0)`
and `skinRotationMatrix = mat3(skinMatrix * inverse(skinMatrix0))`. -/
def relativeRotation (gsMatrix0 skinMatrix skinMatrix0 : Mat4) : Mat3 :=
  (Mat4.toMat3 gsMatrix0).transpose *
    Mat4.toMat3 (skinMatrix * Mat4.invert skinMatrix0) *
    Mat4.toMat3 gsMatrix0

/-- gvrm.js lines 782–784: the relative rotation is round-tripped
through the quaternion helpers with the hardcoded `y` negation. -/
def covRotation (gsMatrix0 skinMatrix skinMatrix0 : Mat4) : Mat3 :=
  mat3FromQuat (negY (quatFromMat3
    (relativeRotation gsMatrix0 skinMatrix skinMatrix0)))

/-- gvrm.js line 785: `mat3 rotatedVrk = transpose(relativeRotation) *
Vrk * relativeRotation;`. -/
def rotatedVrk (gsMatrix0 skinMatrix skinMatrix0 : Mat4)
    (Vrk : Mat3) : Mat3 :=
  (covRotation gsMatrix0 skinMatrix skinMatrix0).transpose * Vrk *
    covRotation gsMatrix0 skinMatrix skinMatrix0

/-- The +90° rotation about the x-axis (y ↦ z, z ↦ −y). -/
def rotX90 : Mat3 := !![1, 0, 0; 0, 0, -1; 0, 1, 0]

/-- The +90° rotation about the y-axis (z ↦ x, x ↦ −z). -/
def rotY90 : Mat3 := !![0, 0, 1; 0, 1, 0; -1, 0, 0]

/-- `rotX90` as an affine `mat4`. -/
def rotX90m4 : Mat4 := !![1, 0, 0, 0; 0, 0, -1, 0; 0, 1, 0, 0; 0, 0, 0, 1]

/-- `rotY90` as an affine `mat4`. -/
def rotY90m4 : Mat4 := !![0, 0, 1, 0; 0, 1, 0, 0; -1, 0, 0, 0; 0, 0, 0, 1]

/-- The concrete covariance used to exhibit the C4 discrepancy. -/
def vrkC4 : Mat3 := !![1, 1, 0; 1, 2, 0; 0, 0, 3]

/-! ### `detectShoes` and the foreground/background split
(`preprocess.js` lines 505–590 and 620–647)

`cleanSplats` splits the full cloud into the in-band column
`filteredVertices6` and its complement `filteredVertices7`;
`detectShoes` then splits `filteredVertices6` into the kept foreground
`filteredVertices3` and the discarded shoe outliers
`filteredVertices4`.  The persisted files are `filteredVertices3` and
`filteredVertices5 = filteredVertices7.concat(filteredVertices4)`.
In JS, `frequencyMap.get(binKey)` on a key outside the −51…51 grid
returns `undefined` and the subsequent `.keep` access throws; lookups
are therefore modelled as `Option` and the two filters as
`Except`-valued, so the partition theorem also certifies that no
lookup misses. -/

/-- The 0.01 m grid key of a vertex:
`` `${Math.round(vertex.x * 100)},${Math.round(vertex.z * 100)}` ``. -/
def binKey (v : V3) : ℤ × ℤ := (jsRound (v.x * 100), jsRound (v.z * 100))

/-- Keys present in `frequencyMap`: the square grid −51 ≤ x, z ≤ 51. -/
def inGrid (c : ℤ × ℤ) : Bool :=
  decide (-51 ≤ c.1) && decide (c.1 ≤ 51) &&
    decide (-51 ≤ c.2) && decide (c.2 ≤ 51)

/-- The grid coordinates −51, …, 51 in iteration order. -/
def gridRange : List ℤ := (List.range 103).map (fun n => (n : ℤ) - 51)

/-- All grid keys, outer loop on `x`, inner loop on `z`. -/
def gridKeys : List (ℤ × ℤ) :=
  gridRange.flatMap (fun x => gridRange.map (fun z => (x, z)))

/-- The shoe-band subset feeding the frequency map (preprocess.js
lines 507–511): `-y < ymin` and `sqrt(x² + z²) < 0.5`. -/
def shoeBand (filteredVertices1 : List V3) (ymin : ℚ) : List V3 :=
  filteredVertices1.filter (fun v =>
    decide (-v.y < ymin) && sqrtLt (v.x * v.x + v.z * v.z) (1/2))

/-- Per-cell `count` after the `forEach` accumulation loop.  Every
vertex of the shoe band lands on an in-grid key (its xz-radius is
below 0.5 m), so the mutating loop is per-key aggregation. -/
def cellCount (vs : List V3) (c : ℤ × ℤ) : ℕ :=
  (vs.filter (fun v => decide (binKey v = c))).length

/-- Per-cell `sum` accumulator: Σ (−y − heights.min). -/
def cellSum (vs : List V3) (hmin : ℚ) (c : ℤ × ℤ) : ℚ :=
  ((vs.filter (fun v => decide (binKey v = c))).map
    (fun v => -v.y - hmin)).sum

/-- Per-cell mean, 0 when the cell is empty (preprocess.js line 529). -/
def cellMean (vs : List V3) (hmin : ℚ) (c : ℤ × ℤ) : ℚ :=
  if cellCount vs c = 0 then 0 else cellSum vs hmin c / (cellCount vs c : ℚ)

/-- `meanCount`: the total count over the 103·103 grid cells divided
by the number of cells (the sort by descending count reorders the list
the counts are read from but not their sum). -/
def meanCount (vs : List V3) : ℚ :=
  ((gridKeys.map (fun c => (cellCount vs c : ℚ))).sum) / (10609 : ℚ)

/-- The initial `keep` flag (preprocess.js line 543):
`frequency.count > meanCount && frequency.mean > 0.01`. -/
def keep0 (vs : List V3) (hmin : ℚ) (c : ℤ × ℤ) : Bool :=
  decide (meanCount vs < (cellCount vs c : ℚ)) &&
    decide (1/100 < cellMean vs hmin c)

/-- The eight neighbour offsets in loop order (`dx` outer, `dz` inner,
skipping `(0,0)`). -/
def neighborOffsets : List (ℤ × ℤ) :=
  [(-1, -1), (-1, 0), (-1, 1), (0, -1), (0, 1), (1, -1), (1, 0), (1, 1)]

/-- One step of the neighbour-demotion sweep (preprocess.js lines
547–571): a currently-kept cell with at least 5 of its 8 neighbours
missing-or-not-kept loses its flag. -/
def demoteStep (k : ℤ × ℤ → Bool) (c : ℤ × ℤ) : ℤ × ℤ → Bool :=
  if k c then
    if 5 ≤ (neighborOffsets.filter (fun d =>
        !(inGrid (c.1 + d.1, c.2 + d.2) && k (c.1 + d.1, c.2 + d.2)))).length
    then fun e => if e = c then false else k e
    else k
  else k

/-- The keep flags after the sequential demotion sweep over the grid
in iteration order. -/
def keepFinal (vs : List V3) (hmin : ℚ) : ℤ × ℤ → Bool :=
  gridKeys.foldl demoteStep (keep0 vs hmin)

/-- `frequencyMap.get(c)` followed by `.keep`: `none` when the key is
off the grid (JS `undefined`; a `.keep` access on it throws). -/
def keepCell (vs : List V3) (hmin : ℚ) (c : ℤ × ℤ) : Option Bool :=
  if inGrid c then some (keepFinal vs hmin c) else none

/-- The `filteredVertices3` predicate (preprocess.js lines 575–579)
with JS short-circuit evaluation explicit: the map lookup is only
reached once the band and radius guards have passed. -/
def fg3Pred (vs : List V3) (heights : Heights) (ymin : ℚ) (v : V3) :
    Except Unit Bool :=
  if ymin ≤ -v.y then Except.ok true
  else if decide (heights.hmin ≤ -v.y) && decide (-v.y ≤ ymin) &&
      sqrtLt (v.x * v.x + v.z * v.z) (1/2) then
    match keepCell vs heights.hmin (binKey v) with
    | some b => Except.ok b
    | none => Except.error ()
  else Except.ok false

/-- The `filteredVertices4` predicate (preprocess.js lines 582–587). -/
def bg4Pred (vs : List V3) (heights : Heights) (ymin : ℚ) (v : V3) :
    Except Unit Bool :=
  if -v.y < heights.hmin then Except.ok true
  else if decide (-v.y < ymin) && !sqrtLt (v.x * v.x + v.z * v.z) (1/2) then
    Except.ok true
  else if decide (-v.y < ymin) && sqrtLt (v.x * v.x + v.z * v.z) (1/2) then
    match keepCell vs heights.hmin (binKey v) with
    | some b => Except.ok (!b)
    | none => Except.error ()
  else Except.ok false

/-- `Array.prototype.filter` with a predicate that may throw. -/
def filterE {α : Type} (p : α → Except Unit Bool) :
    List α → Except Unit (List α)
  | [] => Except.ok []
  | v :: vs =>
    match p v with
    | Except.error e => Except.error e
    | Except.ok b =>
      match filterE p vs with
      | Except.error e => Except.error e
      | Except.ok rest => Except.ok (if b then v :: rest else rest)

/-- `detectShoes` (preprocess.js lines 505–590): computes
`ymin = (heights.max − heights.min)·0.05 + heights.min`, builds the
keep grid from the shoe band and returns
`(filteredVertices3, filteredVertices4)`.  The `centroid` parameter is
accepted but unused by the source (its only use is commented out). -/
def detectShoes (filteredVertices1 : List V3) (heights : Heights)
    (centroid : Centroid) : Except Unit (List V3 × List V3) :=
  let ymin := (heights.hmax - heights.hmin) * (5/100) + heights.hmin
  let vs := shoeBand filteredVertices1 ymin
  match filterE (fg3Pred vs heights ymin) filteredVertices1,
      filterE (bg4Pred vs heights ymin) filteredVertices1 with
  | Except.ok l3, Except.ok l4 => Except.ok (l3, l4)
  | Except.error e, _ => Except.error e
  | _, Except.error e => Except.error e

/-- `filteredVertices6` (preprocess.js lines 625–628): the in-band
column of the full cloud. -/
def filteredVertices6 (cloud : List V3) (cen : Centroid) (distXZ : ℚ)
    (heights : Heights) : List V3 :=
  cloud.filter (fun v =>
    sqrtLe (distXZ2 v cen.cx cen.cz) distXZ &&
    decide (heights.hmin - 1/2 ≤ -v.y) &&
    decide (-v.y ≤ heights.hmax + 1/2))

/-- `filteredVertices7` (preprocess.js lines 629–632): the complement
test as literally written in the source. -/
def filteredVertices7 (cloud : List V3) (cen : Centroid) (distXZ : ℚ)
    (heights : Heights) : List V3 :=
  cloud.filter (fun v =>
    sqrtGt (distXZ2 v cen.cx cen.cz) distXZ ||
    decide (-v.y < heights.hmin - 1/2) ||
    decide (heights.hmax + 1/2 < -v.y))

/-- Concrete inputs for the C10 witness.  `hBandW`/`cenBandW` play the
band-phase `heights`/`centroid` and `hW`/`cenW` the recomputed ones
passed to `detectShoes`. -/
def cloudW : List V3 := [⟨0, -1, 0⟩, ⟨10, 0, 0⟩]

def cenW : Centroid := ⟨0, 0⟩

def hW : Heights := ⟨1/2, 3/2⟩

def cenBandW : Centroid := ⟨1, 0⟩

def hBandW : Heights := ⟨0, 2⟩

/-!
## Theorems
-/

theorem Mat4.mul_invert_self (m : Mat4) (h : m.det ≠ 0) :
    m * Mat4.invert m = 1 := by
  rw [Mat4.invert, if_neg h, Matrix.mul_smul, Matrix.mul_adjugate,
    smul_smul, inv_mul_cancel₀ h, one_smul]

theorem Mat4.invert_one : Mat4.invert (1 : Mat4) = 1 := by
  rw [Mat4.invert, if_neg (by simp), Matrix.adjugate_one]
  simp

theorem mapExcept_ok {α : Type} {f : ℕ → Except Unit α} :
    ∀ {l : List ℕ} {r : List α}, mapExcept f l = Except.ok r →
      List.Forall₂ (fun x a => f x = Except.ok a) l r := by
  intro l
  induction l with
  | nil => intro r h; cases h; exact List.Forall₂.nil
  | cons x xs ih =>
    intro r h
    rw [mapExcept] at h
    cases hfx : f x with
    | error e => rw [hfx] at h; cases h
    | ok a =>
      rw [hfx] at h
      cases hrec : mapExcept f xs with
      | error e => rw [hrec] at h; cases h
      | ok as => rw [hrec] at h; cases h; exact List.Forall₂.cons hfx (ih hrec)

theorem flatMap_triple_get {β : Type} {g : ℕ → List β}
    (h3 : ∀ x, (g x).length = 3) :
    ∀ (l : List ℕ) (i k : ℕ), i < l.length → k < 3 →
      (l.flatMap g).get? (3 * i + k) = (g (l.getD i 0)).get? k := by
  intro l
  induction l with
  | nil => intro i k hi _; cases hi
  | cons x xs ih =>
    intro i k hi hk
    cases i with
    | zero =>
      simp only [List.flatMap_cons, Nat.mul_zero, Nat.zero_add, List.getD_cons_zero]
      exact List.get?_append (by rw [h3]; exact hk)
    | succ n =>
      have harith : 3 * (n + 1) + k = (g x).length + (3 * n + k) := by
        rw [h3]; ring
      simp only [List.flatMap_cons, List.getD_cons_succ, harith]
      rw [List.get?_append_right (Nat.le_add_right _ _), Nat.add_sub_cancel_left]
      exact ih n k (Nat.lt_of_succ_lt_succ hi) hk

/-- **C9.** `assignSplatsToBones` with an empty capsule set (skeleton-only
/ CLI mode) assigns the default bone index 0 to every one of the
`splatCount` splats and returns normally through the early `isCliMode`
branch, which performs no distance computation and raises no error. -/
theorem assignSplatsToBones_emptyCapsules (cbi : List ℤ) (gs : GsData)
    (fast : Bool) :
    assignSplatsToBones [] cbi gs fast = List.replicate gs.centers0.length 0 := by
  simp [assignSplatsToBones]

/-- **C3, counterexample.**  A reachable binding scene on which the
recorded relative offset is *not* `splatCenterInMeshLocalSpace −
boundVertexPositionUnposed`: bone 0's world matrix translates by
(1,0,0), so the bound vertex 0 sits at (1,0,0) in posed space while its
un-posed `position` entry is the origin.  The pipeline records offset
x = −1/2 (center ½ minus *posed* vertex 1), whereas the claim's
formula (`specRelativeOffset`, modelled from the spec's words) gives
x = +1/2. -/
theorem relativeOffset_cex :
    (assignSplatsToPoints chC3 gsC3 [capC3] [3]).toOption.map
        (fun r => (r.splatVertexIndices, r.splatRelativePoses))
      = some ([some 0], [some (-(1/2)), some 0, some 0]) ∧
    specRelativeOffset chC3 gsC3 0 ⟨1/2, 0, 0⟩ = ⟨1/2, 0, 0⟩ ∧
    (some (-(1/2) : ℚ) ≠ some ((specRelativeOffset chC3 gsC3 0 ⟨1/2, 0, 0⟩).x)) := by
  with_unfolding_all decide

/-- **C3 (amended).**  For every bound splat, the stored relative
offset equals the splat center transformed into mesh-local space minus
the bound vertex's *posed* position (`applyBoneTransform` under the
measurement pose, in mesh-local space) — `relativePoseOf`, exactly what
lines 264–277 compute. -/
theorem assignSplatsToPoints_relativeOffset
    (ch : CharacterData) (gs : GsData) (capsules : List Capsule)
    (cbi : List ℤ) (fast : Bool) (r : BindResult) (i : ℕ) (vi : ℕ)
    (hr : assignSplatsToPoints ch gs capsules cbi fast = Except.ok r)
    (hmesh : 3 < ch.skinned.positions.length)
    (hi : i < gs.centers0.length)
    (hvi : r.splatVertexIndices.getD i none = some vi) :
    r.splatRelativePoses.getD (3 * i) none
        = some ((relativePoseOf ch gs vi (gs.centers0.getD i default)).x) ∧
    r.splatRelativePoses.getD (3 * i + 1) none
        = some ((relativePoseOf ch gs vi (gs.centers0.getD i default)).y) ∧
    r.splatRelativePoses.getD (3 * i + 2) none
        = some ((relativePoseOf ch gs vi (gs.centers0.getD i default)).z) := by
  rw [assignSplatsToPoints] at hr
  rw [if_neg (by omega)] at hr
  cases hp : buildPools ch capsules cbi with
  | error e => rw [hp] at hr; cases hr
  | ok pools =>
    simp only [hp] at hr
    cases hm : mapExcept (bindSplat ch gs pools (if fast then 3 else 1))
        (List.range gs.centers0.length) with
    | error e => simp only [hm] at hr; cases hr
    | ok svi =>
      simp only [hm] at hr
      cases hr
      dsimp only at hvi ⊢
      have h3 : ∀ x, (bindPoseChunk ch gs svi x).length = 3 := by
        intro x
        rw [bindPoseChunk]
        cases svi.getD x none <;> rfl
      have hlen : i < (List.range gs.centers0.length).length := by
        simpa using hi
      have hrg : (List.range gs.centers0.length).getD i 0 = i := by
        rw [List.getD_eq_get?, List.get?_range hi]; rfl
      have hchunk : bindPoseChunk ch gs svi i =
          [some ((relativePoseOf ch gs vi (gs.centers0.getD i default)).x),
           some ((relativePoseOf ch gs vi (gs.centers0.getD i default)).y),
           some ((relativePoseOf ch gs vi (gs.centers0.getD i default)).z)] := by
        rw [bindPoseChunk, hvi]
      refine ⟨?_, ?_, ?_⟩
      · have := flatMap_triple_get h3 (List.range gs.centers0.length) i 0
          hlen (by omega)
        rw [bindPoses, List.getD_eq_get?]
        rw [show 3 * i = 3 * i + 0 from rfl, this, hrg, hchunk]
        rfl
      · have := flatMap_triple_get h3 (List.range gs.centers0.length) i 1
          hlen (by omega)
        rw [bindPoses, List.getD_eq_get?, this, hrg, hchunk]
        rfl
      · have := flatMap_triple_get h3 (List.range gs.centers0.length) i 2
          hlen (by omega)
        rw [bindPoses, List.getD_eq_get?, this, hrg, hchunk]
        rfl

/-- Witness for `assignSplatsToPoints_relativeOffset`: on the witness
scene the recorded offsets of splat 0 are exactly the components of
`relativePoseOf` at its bound vertex 0. -/
theorem assignSplatsToPoints_relativeOffset_witness :
    bindResW.splatRelativePoses.getD 0 none
        = some ((relativePoseOf chCE gsW 0 (gsW.centers0.getD 0 default)).x) ∧
    bindResW.splatRelativePoses.getD 1 none
        = some ((relativePoseOf chCE gsW 0 (gsW.centers0.getD 0 default)).y) ∧
    bindResW.splatRelativePoses.getD 2 none
        = some ((relativePoseOf chCE gsW 0 (gsW.centers0.getD 0 default)).z) :=
  assignSplatsToPoints_relativeOffset chCE gsW [capNear, capFar] [5, 7]
    false bindResW 0 0
    (by with_unfolding_all rfl) (by decide) (by decide) (by decide)

theorem addToGroups_map_fst (acc : List (ℤ × List ℕ)) (b : ℤ) (i : ℕ) :
    (addToGroups acc b i).map Prod.fst = fsStep (acc.map Prod.fst) b := by
  induction acc with
  | nil => simp [addToGroups, fsStep]
  | cons p rest ih =>
    obtain ⟨b', g⟩ := p
    by_cases hb : b' = b
    · subst hb
      simp [addToGroups, fsStep]
    · simp only [addToGroups, if_neg hb, List.map_cons, ih, fsStep,
        List.mem_cons]
      by_cases hm : b ∈ rest.map Prod.fst
      · simp [hm, Ne.symm hb]
      · simp [hm, Ne.symm hb]

theorem buildGroupsAux_map_fst (l : List (ℤ × ℕ)) :
    ∀ acc, (buildGroupsAux acc l).map Prod.fst =
      (l.map Prod.fst).foldl fsStep (acc.map Prod.fst) := by
  induction l with
  | nil => intro acc; rfl
  | cons p rest ih =>
    intro acc
    obtain ⟨b, i⟩ := p
    simp only [buildGroupsAux, List.map_cons, List.foldl_cons]
    rw [ih, addToGroups_map_fst]

theorem addToGroups_join (acc : List (ℤ × List ℕ)) (b : ℤ) (i : ℕ) :
    ((addToGroups acc b i).map Prod.snd).join.Perm
      ((acc.map Prod.snd).join ++ [i]) := by
  induction acc with
  | nil => simp [addToGroups]
  | cons p rest ih =>
    obtain ⟨b', g⟩ := p
    by_cases hb : b' = b
    · subst hb
      simp only [addToGroups, if_pos rfl, List.map_cons, List.join_cons]
      simpa [List.append_assoc] using
        List.Perm.append_left g
          (@List.perm_append_comm _ [i] ((rest.map Prod.snd).join))
    · simp only [addToGroups, if_neg hb, List.map_cons, List.join_cons]
      simpa [List.append_assoc] using List.Perm.append_left g ih

theorem buildGroupsAux_join (l : List (ℤ × ℕ)) :
    ∀ acc, ((buildGroupsAux acc l).map Prod.snd).join.Perm
      ((acc.map Prod.snd).join ++ l.map Prod.snd) := by
  induction l with
  | nil => intro acc; simp [buildGroupsAux]
  | cons p rest ih =>
    intro acc
    obtain ⟨b, i⟩ := p
    simp only [buildGroupsAux, List.map_cons]
    refine (ih _).trans ?_
    refine (List.Perm.append_right _ (addToGroups_join acc b i)).trans ?_
    simp [List.append_assoc]

theorem addToGroups_sorted (acc : List (ℤ × List ℕ)) (b : ℤ) (s : ℕ)
    (h : ∀ p ∈ acc, List.Pairwise (· < ·) p.2 ∧ ∀ x ∈ p.2, x < s) :
    ∀ p ∈ addToGroups acc b s,
      List.Pairwise (· < ·) p.2 ∧ ∀ x ∈ p.2, x < s + 1 := by
  induction acc with
  | nil =>
    intro p hp
    simp only [addToGroups, List.mem_singleton] at hp
    subst hp
    exact ⟨List.pairwise_singleton _ _, by simp⟩
  | cons q rest ih =>
    obtain ⟨b', g⟩ := q
    intro p hp
    by_cases hb : b' = b
    · subst hb
      rw [addToGroups, if_pos rfl, List.mem_cons] at hp
      rcases hp with hp | hp
      · subst hp
        have hg := h (b', g) (List.mem_cons_self _ _)
        refine ⟨?_, ?_⟩
        · rw [List.pairwise_append]
          refine ⟨hg.1, List.pairwise_singleton _ _, ?_⟩
          intro x hx y hy
          rw [List.mem_singleton] at hy
          subst hy
          exact hg.2 x hx
        · intro x hx
          rw [List.mem_append, List.mem_singleton] at hx
          rcases hx with hx | hx
          · exact Nat.lt_succ_of_lt (hg.2 x hx)
          · subst hx; exact Nat.lt_succ_self _
      · have hq := h p (List.mem_cons_of_mem _ hp)
        exact ⟨hq.1, fun x hx => Nat.lt_succ_of_lt (hq.2 x hx)⟩
    · rw [addToGroups, if_neg hb, List.mem_cons] at hp
      rcases hp with hp | hp
      · subst hp
        have hq := h (b', g) (List.mem_cons_self _ _)
        exact ⟨hq.1, fun x hx => Nat.lt_succ_of_lt (hq.2 x hx)⟩
      · exact ih (fun q hq => h q (List.mem_cons_of_mem _ hq)) p hp

theorem buildGroupsAux_sorted (l : List (ℤ × ℕ)) :
    ∀ (acc : List (ℤ × List ℕ)) (s : ℕ),
      (∀ p ∈ acc, List.Pairwise (· < ·) p.2 ∧ ∀ x ∈ p.2, x < s) →
      l.map Prod.snd = List.range' s l.length →
      ∀ p ∈ buildGroupsAux acc l, List.Pairwise (· < ·) p.2 := by
  induction l with
  | nil => intro acc s h _ p hp; exact (h p hp).1
  | cons q rest ih =>
    intro acc s h hl p hp
    obtain ⟨b, i⟩ := q
    simp only [List.map_cons, List.length_cons, List.range'_succ] at hl
    obtain ⟨hi, hrest⟩ := List.cons.inj hl
    subst hi
    exact ih (addToGroups acc b i) (i + 1) (addToGroups_sorted acc b i h)
      hrest p hp

/-- **C6.**  `sortSplatsByBones` is a deterministic function of the
`splatBoneIndices` array: (i) the dense scene ids 0..K−1 (list
positions) are assigned to the K distinct bone indices in order of
first appearance; (ii) `sceneSplatIndices` places every splat index
0..splatCount−1 into exactly one group (their concatenation is a
permutation of `range splatCount`); (iii) splat indices are in
increasing order within each group; (iv) equal `splatBoneIndices`
inputs produce equal `sceneSplatIndices`/`boneSceneMap` outputs. -/
theorem sortSplatsByBones_spec (bones : List ℤ) :
    (sortGroups bones).map Prod.fst = firstSeen bones ∧
    (scenePerm bones).Perm (List.range bones.length) ∧
    (∀ g ∈ (sortGroups bones).map Prod.snd, List.Pairwise (· < ·) g) ∧
    (∀ ed₁ ed₂ : ExtraData, ed₁.splatBoneIndices = ed₂.splatBoneIndices →
      (sortSplatsByBones ed₁).2 = (sortSplatsByBones ed₂).2) := by
  have hsnd : ((bones.enum.map (fun p : ℕ × ℤ => (p.2, p.1))).map Prod.snd)
      = List.range bones.length := by
    rw [List.map_map]
    have h : (Prod.snd ∘ fun p : ℕ × ℤ => (p.2, p.1)) = Prod.fst := rfl
    rw [h, List.enum_map_fst]
  refine ⟨?_, ?_, ?_, ?_⟩
  · rw [sortGroups, buildGroupsAux_map_fst, firstSeen]
    congr 1
    rw [List.map_map]
    have h : (Prod.fst ∘ fun p : ℕ × ℤ => (p.2, p.1)) = Prod.snd := rfl
    rw [h, List.enum_map_snd]
  · rw [scenePerm, sortGroups]
    have h := buildGroupsAux_join (bones.enum.map (fun p => (p.2, p.1))) []
    simp only [List.map_nil, List.join_nil, List.nil_append] at h
    exact h.trans (by rw [hsnd])
  · intro g hg
    rw [List.mem_map] at hg
    obtain ⟨p, hp, hpg⟩ := hg
    subst hpg
    refine buildGroupsAux_sorted _ [] 0 (by simp) ?_ p hp
    rw [hsnd, List.length_map, List.enum_length, List.range_eq_range']
  · intro ed₁ ed₂ h
    simp only [sortSplatsByBones, h]

/-- Witness for `sortSplatsByBones_spec` at the concrete input
`[1, 2, 1]`: scene 0 is bone 1 with splats `[0, 2]` (increasing),
scene 1 is bone 2 with splat `[1]`. -/
theorem sortSplatsByBones_spec_witness :
    sortGroups [1, 2, 1] = [(1, [0, 2]), (2, [1])] ∧
    List.Pairwise (· < ·) [0, 2] := by
  constructor
  · decide
  · exact (sortSplatsByBones_spec [1, 2, 1]).2.2.1 [0, 2] (by decide)

theorem flatMap_map_join {α β : Type} (groups : List (List α)) (f : α → β) :
    groups.flatMap (fun g => g.map f) = groups.join.map f := by
  induction groups with
  | nil => rfl
  | cons g rest ih =>
    simp only [List.flatMap_cons, List.join_cons, List.map_append, ih]

theorem flatMap_join {α β : Type} (groups : List (List α)) (h : α → List β) :
    groups.flatMap (fun g => g.flatMap h) = groups.join.flatMap h := by
  induction groups with
  | nil => rfl
  | cons g rest ih =>
    simp only [List.flatMap_cons, List.join_cons, List.flatMap_append, ih]

theorem getD_map_of_lt {α β : Type} (l : List α) (f : α → β) (k : ℕ)
    (hk : k < l.length) (d : β) (d₀ : α) :
    (l.map f).getD k d = f (l.getD k d₀) := by
  rw [List.getD_eq_get?, List.getD_eq_get?, List.get?_map,
    List.get?_eq_get hk]
  rfl

theorem scenePerm_length (bones : List ℤ) :
    (scenePerm bones).length = bones.length := by
  rw [(sortSplatsByBones_spec bones).2.1.length_eq, List.length_range]

theorem relPoseTriple_length (p : List ℚ) (j : ℕ) :
    (relPoseTriple p j).length = 3 := rfl

/-- **C2.**  Save/load round trip.  `GVRM.save` writes the three
binding arrays verbatim into `data.json` (JSON round-trips the numbers
exactly); `GVRM.load` re-reads them and applies `sortSplatsByBones`,
which reorders both the arrays (`updateExtraData`) and the splat cloud
itself (`splitPLY` by `sceneSplatIndices`) by the *same* permutation
`scenePerm`.  Hence the loaded binding reproduces the saved one
bit-exactly, index-aligned to the reloaded splat cloud's own vertex
order: for every position `k` of the loaded cloud, the loaded
bone/vertex/offset values at `k` are exactly the saved values of the
very splat that now sits at position `k`. -/
theorem saveLoad_roundTrip {α : Type} [Inhabited α]
    (ed : ExtraData) (cloud : List α) (n : ℕ)
    (hb : ed.splatBoneIndices.length = n)
    (hv : ed.splatVertexIndices.length = n)
    (hp : ed.splatRelativePoses.length = 3 * n)
    (hc : cloud.length = n)
    (k : ℕ) (hk : k < n) :
    ((sortSplatsByBones ed).1.splatBoneIndices.getD k 0
        = ed.splatBoneIndices.getD ((scenePerm ed.splatBoneIndices).getD k 0) 0) ∧
    ((sortSplatsByBones ed).1.splatVertexIndices.getD k 0
        = ed.splatVertexIndices.getD ((scenePerm ed.splatBoneIndices).getD k 0) 0) ∧
    (∀ t < 3, (sortSplatsByBones ed).1.splatRelativePoses.getD (3 * k + t) 0
        = ed.splatRelativePoses.getD
            (3 * ((scenePerm ed.splatBoneIndices).getD k 0) + t) 0) ∧
    ((reorderCloud ed.splatBoneIndices cloud).getD k default
        = cloud.getD ((scenePerm ed.splatBoneIndices).getD k 0) default) := by
  have hkp : k < (scenePerm ed.splatBoneIndices).length := by
    rw [scenePerm_length, hb]; exact hk
  refine ⟨?_, ?_, ?_, ?_⟩
  · show (updateExtraData ed _).splatBoneIndices.getD k 0 = _
    rw [updateExtraData]
    dsimp only
    rw [flatMap_map_join, ← scenePerm, getD_map_of_lt _ _ _ hkp _ 0]
  · show (updateExtraData ed _).splatVertexIndices.getD k 0 = _
    rw [updateExtraData]
    dsimp only
    rw [flatMap_map_join, ← scenePerm, getD_map_of_lt _ _ _ hkp _ 0]
  · intro t ht
    show (updateExtraData ed _).splatRelativePoses.getD (3 * k + t) 0 = _
    rw [updateExtraData]
    dsimp only
    rw [flatMap_join, ← scenePerm]
    have hfm := flatMap_triple_get
      (g := relPoseTriple ed.splatRelativePoses)
      (fun _ => relPoseTriple_length _ _)
      (scenePerm ed.splatBoneIndices) k t hkp ht
    rw [List.getD_eq_get?, hfm]
    rw [relPoseTriple]
    interval_cases t
    · rfl
    · rfl
    · rfl
  · rw [reorderCloud, getD_map_of_lt _ _ _ hkp _ 0]

/-- Witness for `saveLoad_roundTrip`: the interleaved bone array
`[1, 2, 1]` reorders the cloud by the permutation `[0, 2, 1]`; position
1 of the loaded cloud carries saved splat 2 together with its saved
bone (1), vertex (12) and offset triple (6, 7, 8). -/
theorem saveLoad_roundTrip_witness :
    ((sortSplatsByBones ⟨[10, 11, 12], [1, 2, 1],
        [0, 1, 2, 3, 4, 5, 6, 7, 8]⟩).1.splatBoneIndices.getD 1 0
      = (([1, 2, 1] : List ℤ)).getD
          ((scenePerm [1, 2, 1]).getD 1 0) 0) ∧
    ((sortSplatsByBones ⟨[10, 11, 12], [1, 2, 1],
        [0, 1, 2, 3, 4, 5, 6, 7, 8]⟩).1.splatVertexIndices.getD 1 0
      = (([10, 11, 12] : List ℤ)).getD
          ((scenePerm [1, 2, 1]).getD 1 0) 0) ∧
    (∀ t < 3, (sortSplatsByBones ⟨[10, 11, 12], [1, 2, 1],
        [0, 1, 2, 3, 4, 5, 6, 7, 8]⟩).1.splatRelativePoses.getD (3 * 1 + t) 0
      = (([0, 1, 2, 3, 4, 5, 6, 7, 8] : List ℚ)).getD
          (3 * ((scenePerm [1, 2, 1]).getD 1 0) + t) 0) ∧
    ((reorderCloud [1, 2, 1] [(100 : ℤ), 101, 102]).getD 1 default
      = (([100, 101, 102] : List ℤ)).getD
          ((scenePerm [1, 2, 1]).getD 1 0) default) :=
  saveLoad_roundTrip ⟨[10, 11, 12], [1, 2, 1], [0, 1, 2, 3, 4, 5, 6, 7, 8]⟩
    [(100 : ℤ), 101, 102] 3 (by decide) (by decide)
    (by simp) (by decide) 1 (by decide)


theorem assignSplatsToBonesAux_length (capsules : List Capsule)
    (cbi : List ℤ) (gs : GsData) (fast : Bool) :
    ∀ (k i bestCi : ℕ), gs.centers0.length - i = k →
      (assignSplatsToBonesAux capsules cbi gs fast i bestCi).length = k := by
  intro k
  induction k with
  | zero =>
    intro i bestCi h
    rw [assignSplatsToBonesAux, dif_neg (by omega)]
    rfl
  | succ m ih =>
    intro i bestCi h
    rw [assignSplatsToBonesAux, dif_pos (by omega)]
    split
    · rw [List.length_cons, ih (i + 1) bestCi (by omega)]
    · dsimp only
      rw [List.length_cons, ih (i + 1) _ (by omega)]

theorem assignSplatsToBones_length (capsules : List Capsule) (cbi : List ℤ)
    (gs : GsData) (fast : Bool) :
    (assignSplatsToBones capsules cbi gs fast).length = gs.centers0.length := by
  rw [assignSplatsToBones]
  split
  · rw [List.length_replicate]
  · exact assignSplatsToBonesAux_length capsules cbi gs fast _ 0 0
      (Nat.sub_zero _)

theorem flatMap_const_length {α β : Type} (g : α → List β)
    (h3 : ∀ x, (g x).length = 3) :
    ∀ l : List α, (l.flatMap g).length = 3 * l.length := by
  intro l
  induction l with
  | nil => rfl
  | cons x xs ih =>
    rw [List.flatMap_cons, List.length_append, h3, ih, List.length_cons]
    ring

theorem bindPoses_length (ch : CharacterData) (gs : GsData)
    (svi : List (Option ℕ)) :
    (bindPoses ch gs svi).length = 3 * gs.centers0.length := by
  rw [bindPoses]
  rw [flatMap_const_length (bindPoseChunk ch gs svi)
    (fun x => by rw [bindPoseChunk]; cases svi.getD x none <;> rfl)]
  rw [List.length_range]

/-- **C5.**  Index alignment.  (i) After bone classification,
`splatBoneIndices` has one entry per splat; (ii) after the
splat-to-vertex binding stage, `splatVertexIndices` has `splatCount`
entries and `splatRelativePoses` has `3 · splatCount` entries; (iii)
after a save/load round trip — i.e. after the bone-group reordering
`sortSplatsByBones` performs on load — all three arrays keep those
lengths (`splatCount = n`). -/
theorem indexAlignment (capsules : List Capsule) (cbi : List ℤ)
    (gs : GsData) (fast : Bool) (ch : CharacterData) (r : BindResult)
    (ed : ExtraData) (n : ℕ)
    (hr : assignSplatsToPoints ch gs capsules cbi fast = Except.ok r)
    (hb : ed.splatBoneIndices.length = n) :
    ((assignSplatsToBones capsules cbi gs fast).length = gs.centers0.length) ∧
    (r.splatVertexIndices.length = gs.centers0.length) ∧
    (r.splatRelativePoses.length = 3 * gs.centers0.length) ∧
    ((sortSplatsByBones ed).1.splatBoneIndices.length = n) ∧
    ((sortSplatsByBones ed).1.splatVertexIndices.length = n) ∧
    ((sortSplatsByBones ed).1.splatRelativePoses.length = 3 * n) := by
  have hperm : (scenePerm ed.splatBoneIndices).length = n := by
    rw [scenePerm_length, hb]
  have hbinding : r.splatVertexIndices.length = gs.centers0.length ∧
      r.splatRelativePoses.length = 3 * gs.centers0.length := by
    rw [assignSplatsToPoints] at hr
    split at hr
    · cases hr
      exact ⟨List.length_replicate _ _, List.length_replicate _ _⟩
    · cases hp : buildPools ch capsules cbi with
      | error e => rw [hp] at hr; cases hr
      | ok pools =>
        simp only [hp] at hr
        cases hm : mapExcept (bindSplat ch gs pools (if fast then 3 else 1))
            (List.range gs.centers0.length) with
        | error e => simp only [hm] at hr; cases hr
        | ok svi =>
          simp only [hm] at hr
          cases hr
          refine ⟨?_, bindPoses_length ch gs svi⟩
          rw [← (mapExcept_ok hm).length_eq, List.length_range]
  refine ⟨assignSplatsToBones_length capsules cbi gs fast,
    hbinding.1, hbinding.2, ?_, ?_, ?_⟩
  · show ((updateExtraData ed _).splatBoneIndices).length = n
    rw [updateExtraData]
    dsimp only
    rw [flatMap_map_join, ← scenePerm, List.length_map, hperm]
  · show ((updateExtraData ed _).splatVertexIndices).length = n
    rw [updateExtraData]
    dsimp only
    rw [flatMap_map_join, ← scenePerm, List.length_map, hperm]
  · show ((updateExtraData ed _).splatRelativePoses).length = 3 * n
    rw [updateExtraData]
    dsimp only
    rw [flatMap_join, ← scenePerm]
    rw [flatMap_const_length (relPoseTriple ed.splatRelativePoses)
      (fun _ => relPoseTriple_length _ _), hperm]

/-- Witness for `indexAlignment` on the concrete witness scene and a
3-splat `extraData`. -/
theorem indexAlignment_witness :
    ((assignSplatsToBones [capNear, capFar] [5, 7] gsW false).length
        = gsW.centers0.length) ∧
    (bindResW.splatVertexIndices.length = gsW.centers0.length) ∧
    (bindResW.splatRelativePoses.length = 3 * gsW.centers0.length) ∧
    ((sortSplatsByBones ⟨[10, 11, 12], [1, 2, 1],
        [0, 1, 2, 3, 4, 5, 6, 7, 8]⟩).1.splatBoneIndices.length = 3) ∧
    ((sortSplatsByBones ⟨[10, 11, 12], [1, 2, 1],
        [0, 1, 2, 3, 4, 5, 6, 7, 8]⟩).1.splatVertexIndices.length = 3) ∧
    ((sortSplatsByBones ⟨[10, 11, 12], [1, 2, 1],
        [0, 1, 2, 3, 4, 5, 6, 7, 8]⟩).1.splatRelativePoses.length = 3 * 3) :=
  indexAlignment [capNear, capFar] [5, 7] gsW false chCE bindResW
    ⟨[10, 11, 12], [1, 2, 1], [0, 1, 2, 3, 4, 5, 6, 7, 8]⟩ 3
    (by with_unfolding_all rfl) (by decide)


theorem ptsC7_radiusFiltered (d : ℚ) :
    radiusFilteredOf ptsC7 ⟨0, 0⟩ d 0 2 = ptsC7 := by
  rw [radiusFilteredOf]
  have hp : (ptsC7.filter fun v =>
      decide (|v.y| < 2) &&
      sqrtLt (distXZ2 v (Centroid.mk 0 0).cx (Centroid.mk 0 0).cz) (d * 0)) = [] := by
    rw [List.filter_eq_nil]
    intro v _hv
    simp [sqrtLt, mul_zero]
  simp only [hp, List.length_nil, if_true]
  rw [List.filter_eq_self]
  intro v hv
  rw [List.eq_of_mem_replicate hv]
  simp only [decide_eq_true_eq]
  rw [abs_lt]
  constructor <;> norm_num

theorem ptsC7_core :
    calcCore none ptsC7 = Except.ok ⟨51/100, 1/2⟩ := by
  with_unfolding_all rfl

theorem ptsC7_validationFails (d : ℚ) :
    validationFails ptsC7 ⟨0, 0⟩ d ⟨51/100, 1/2⟩ = true := by
  rw [validationFails]
  have ht : testFilteredOf ptsC7 ⟨0, 0⟩ d ⟨51/100, 1/2⟩ = [] := by
    rw [testFilteredOf, List.filter_eq_nil]
    intro v hv
    rw [List.eq_of_mem_replicate hv]
    intro hcontra
    rw [Bool.and_eq_true, Bool.and_eq_true] at hcontra
    have h2 := hcontra.1.2
    rw [decide_eq_true_eq] at h2
    norm_num at h2
  rw [ht]
  simp [outerRingOf]

theorem ptsC7_stepFails (d : ℚ) :
    calcStep none ptsC7 ⟨0, 0⟩ d 0 2 = StepResult.fail ⟨51/100, 1/2⟩ := by
  rw [calcStep, ptsC7_radiusFiltered, ptsC7_core]
  simp only [ptsC7_validationFails, if_true]

/-- **C7.**  When the calibration acceptance thresholds fail at every
search radius, `calculateHeights` terminates with the `[ErrorID 6]`
calibration error instead of recursing forever (first conjunct); and
each threshold failure either grows the radius by exactly 0.1 and
re-runs (while `distXZ < 3.0`), or — once the radius has reached the
3.0 cap — throws `[ErrorID 6]` instead of retrying (second
conjunct). -/
theorem calculateHeights_alwaysFail_error6
    (hints : Option CalcHints) (vertices : List V3) (centroid : Centroid)
    (thresh distY : ℚ)
    (H : ∀ d : ℚ, ∃ h, calcStep hints vertices centroid d thresh distY
      = StepResult.fail h)
    (h0 : Option Heights) (d0 : ℚ) :
    calculateHeights hints vertices centroid thresh distY h0 d0
      = Except.error 6 ∧
    (∀ (d : ℚ) (h : Heights) (h1 : Option Heights),
      calcStep hints vertices centroid d thresh distY = StepResult.fail h →
      (d < 3 → calculateHeights hints vertices centroid thresh distY h1 d
        = calculateHeights hints vertices centroid thresh distY (some h)
            (d + 1/10)) ∧
      (¬ d < 3 → calculateHeights hints vertices centroid thresh distY h1 d
        = Except.error 6)) := by
  constructor
  · have main : ∀ (k : ℕ) (h1 : Option Heights) (d : ℚ),
        (⌈(3 - d) * 10⌉).toNat = k →
        calculateHeights hints vertices centroid thresh distY h1 d
          = Except.error 6 := by
      intro k
      induction k using Nat.strong_induction_on with
      | _ k ih =>
        intro h1 d hk
        obtain ⟨h, hstep⟩ := H d
        rw [calculateHeights]
        simp only [hstep]
        by_cases hd : d < 3
        · rw [dif_pos hd]
          refine ih (⌈(3 - (d + 1/10)) * 10⌉).toNat ?_ (some h) _ rfl
          subst hk
          have hq1 : (0 : ℚ) < (3 - d) * 10 := by linarith
          have hq2 : (0 : ℤ) < ⌈(3 - d) * 10⌉ := Int.ceil_pos.mpr hq1
          have hq3 : (3 - (d + 1/10)) * 10 = (3 - d) * 10 - 1 := by ring
          rw [hq3, Int.ceil_sub_one]
          omega
        · rw [dif_neg hd]
    exact main _ h0 d0 rfl
  · intro d h h1 hstep
    constructor
    · intro hd
      rw [calculateHeights]
      simp only [hstep]
      rw [dif_pos hd]
    · intro hd
      rw [calculateHeights]
      simp only [hstep]
      rw [dif_neg hd]

/-- Witness for `calculateHeights_alwaysFail_error6`: the 12-point
cloud `ptsC7` fails the thresholds at every radius, and the calibrator
started at radius 0.3 ends with `[ErrorID 6]`. -/
theorem calculateHeights_alwaysFail_error6_witness :
    calculateHeights none ptsC7 ⟨0, 0⟩ 0 2 none (3/10) = Except.error 6 :=
  (calculateHeights_alwaysFail_error6 none ptsC7 ⟨0, 0⟩ 0 2
    (fun d => ⟨⟨51/100, 1/2⟩, ptsC7_stepFails d⟩) none (3/10)).1


theorem bumpRetry_ge_one {hints : Option PHints} {h : PHints}
    (hmu : bumpRetry hints = some h) : 1 ≤ h.retry := by
  cases hints with
  | none => simp [bumpRetry] at hmu
  | some h0 =>
    rw [bumpRetry] at hmu
    by_cases h00 : h0.retry = 0
    · rw [if_pos h00] at hmu
      cases hmu
      exact Nat.le_refl _
    · rw [if_neg h00] at hmu
      cases hmu
      exact Nat.le_add_left 1 h0.retry

theorem preprocessRun_retried (outcomes : ℕ → BodyOutcome) (n : ℕ)
    (h : PHints) (hge : 1 ≤ h.retry) :
    preprocessRun outcomes n (some h) =
      match outcomes n with
      | BodyOutcome.ok => ⟨true, 1, false⟩
      | _ => ⟨false, 1, true⟩ := by
  rw [preprocessRun]
  cases ho : outcomes n with
  | ok => rfl
  | groundFail kh =>
    dsimp only
    split
    · next h1 hmu => simp [groundMutate, bumpRetry] at hmu
    · rfl
  | otherFail =>
    dsimp only
    split
    · next h1 hmu =>
      rw [bumpRetry, if_neg (by omega)] at hmu
      cases hmu
      split
      · next hr =>
        simp only at hr
        omega
      · rfl
    · next hmu =>
      rw [bumpRetry, if_neg (by omega)] at hmu

/-- **C8.**  The automatic retry of `preprocess` happens at most once:
(i) any invocation makes at most 2 body attempts; (ii) the retry
counter carried in hints only increases across the catch block's
update; (iii) once the counter exceeds 1, a failing run never retries
again — `saveError` writes the diagnostic record and the structured
error is returned; (iv) whenever the invocation does not succeed, the
diagnostic error record has been written. -/
theorem preprocess_retryAtMostOnce (outcomes : ℕ → BodyOutcome) :
    (∀ (n : ℕ) (hints : Option PHints),
      (preprocessRun outcomes n hints).attempts ≤ 2) ∧
    (∀ (hints : Option PHints) (h : PHints), bumpRetry hints = some h →
      (hints.map PHints.retry).getD 0 < h.retry) ∧
    (∀ (n : ℕ) (h : PHints), 1 < h.retry → outcomes n ≠ BodyOutcome.ok →
      preprocessRun outcomes n (some h)
        = PreprocessResult.mk false 1 true) ∧
    (∀ (n : ℕ) (hints : Option PHints),
      (preprocessRun outcomes n hints).success = false →
      (preprocessRun outcomes n hints).errorSaved = true) := by
  have hattempt : ∀ (n : ℕ) (hints : Option PHints),
      (preprocessRun outcomes n hints).attempts ≤ 2 := by
    intro n hints
    rw [preprocessRun]
    cases ho : outcomes n with
    | ok => dsimp only; omega
    | groundFail kh =>
      dsimp only
      split
      · next h hmu =>
        split
        · next hr =>
          have h1 := bumpRetry_ge_one hmu
          rw [preprocessRun_retried outcomes (n + 1) h h1]
          cases outcomes (n + 1) <;> dsimp only <;> omega
        · dsimp only; omega
      · dsimp only; omega
    | otherFail =>
      dsimp only
      split
      · next h hmu =>
        split
        · next hr =>
          have h1 := bumpRetry_ge_one hmu
          rw [preprocessRun_retried outcomes (n + 1) h h1]
          cases outcomes (n + 1) <;> dsimp only <;> omega
        · dsimp only; omega
      · dsimp only; omega
  have hsaved : ∀ (n : ℕ) (hints : Option PHints),
      (preprocessRun outcomes n hints).success = false →
      (preprocessRun outcomes n hints).errorSaved = true := by
    intro n hints
    rw [preprocessRun]
    cases ho : outcomes n with
    | ok => intro hcontra; cases hcontra
    | groundFail kh =>
      dsimp only
      split
      · next h hmu =>
        split
        · next hr =>
          have h1 := bumpRetry_ge_one hmu
          rw [preprocessRun_retried outcomes (n + 1) h h1]
          cases outcomes (n + 1) <;> intro hcontra <;>
            first | rfl | cases hcontra
        · intro _; rfl
      · intro _; rfl
    | otherFail =>
      dsimp only
      split
      · next h hmu =>
        split
        · next hr =>
          have h1 := bumpRetry_ge_one hmu
          rw [preprocessRun_retried outcomes (n + 1) h h1]
          cases outcomes (n + 1) <;> intro hcontra <;>
            first | rfl | cases hcontra
        · intro _; rfl
      · intro _; rfl
  refine ⟨hattempt, ?_, ?_, hsaved⟩
  · intro hints h hmu
    cases hints with
    | none => simp [bumpRetry] at hmu
    | some h0 =>
      rw [bumpRetry] at hmu
      by_cases h00 : h0.retry = 0
      · rw [if_pos h00] at hmu
        cases hmu
        simp [h00]
      · rw [if_neg h00] at hmu
        cases hmu
        simp
  · intro n h hgt hok
    rw [preprocessRun_retried outcomes n h (by omega)]
    cases ho : outcomes n with
    | ok => exact absurd ho hok
    | groundFail kh => rfl
    | otherFail => rfl

/-- Witness for `preprocess_retryAtMostOnce` on a concrete
always-failing outcome stream: the run starting with no hints makes
exactly 2 attempts (one retry after the ground-check failure), saves
the diagnostic record, and returns the structured error. -/
theorem preprocess_retryAtMostOnce_witness :
    ((preprocessRun (fun _ => BodyOutcome.groundFail 1) 0 none).attempts ≤ 2) ∧
    ((Option.map PHints.retry (some ⟨none, 0⟩)).getD 0 < 1) ∧
    (preprocessRun (fun _ => BodyOutcome.groundFail 1) 5
        (some ⟨none, 2⟩) = PreprocessResult.mk false 1 true) ∧
    ((preprocessRun (fun _ => BodyOutcome.groundFail 1) 0 none).success = false →
      (preprocessRun (fun _ => BodyOutcome.groundFail 1) 0 none).errorSaved = true) :=
  ⟨(preprocess_retryAtMostOnce (fun _ => BodyOutcome.groundFail 1)).1 0 none,
   by
    have := (preprocess_retryAtMostOnce (fun _ => BodyOutcome.groundFail 1)).2.1
      (some ⟨none, 0⟩) ⟨none, 1⟩ (by rfl)
    simpa using this,
   (preprocess_retryAtMostOnce (fun _ => BodyOutcome.groundFail 1)).2.2.1 5
     ⟨none, 2⟩ (by decide) (by simp),
   (preprocess_retryAtMostOnce (fun _ => BodyOutcome.groundFail 1)).2.2.2 0 none⟩


theorem V3.mulDir_one (v : V3) : V3.mulDir 1 v = v := by
  cases v
  simp [V3.mulDir, Matrix.one_apply]

theorem V3.add_sub_cancel_self (a c : V3) : a.add (c.sub a) = c := by
  cases a
  cases c
  simp only [V3.add, V3.sub, V3.mk.injEq]
  refine ⟨by ring, by ring, by ring⟩

/-- **C4, counterexample.**  With bind-time gs matrix and bind-time
skin matrix the identity and the current skin matrix a 90° rotation
about the x-axis, the shader's covariance conjugation does *not*
rotate `Vrk` by that rotation (it applies the inverse rotation — see
the amended statement). -/
theorem covRotation_cex :
    rotatedVrk 1 rotX90m4 1 vrkC4 ≠ rotX90 * vrkC4 * rotX90.transpose := by
  with_unfolding_all decide

/-- **C4** (amended).
(i) With an identity pose change (`skinMatrix = skinMatrix0`,
invertible) the deformer reproduces the splat's bound center exactly:
posing the rest vertex and adding the re-oriented stored offset
`center − posedVertex` yields `meshMatrixWorld · center`.
(ii) The relative offset is re-oriented by the relative skin
transform: if `skinMatrix = R · skinMatrix0` then
`skinnedRelativePos = R · relativeOffset`, so a 90° rotation rotates
the offset by exactly that 90°.
(iii) For the covariance, the quaternion round-trip with the
hardcoded `y` negation conjugates a 90° rotation about **y** in the
spec's direction, `R · Vrk · Rᵀ`; but a 90° rotation about **x** is
applied in the inverse direction, `Rᵀ · Vrk · R`
(see `covRotation_cex`). -/
theorem gsDeformer_scenarioC :
    (∀ (meshMW S0 : Mat4) (restPos center : V3), S0.det ≠ 0 →
      shaderSplatCenter meshMW S0 S0 restPos
          (center.sub (V3.mulPointXYZ S0 restPos)) =
        V3.mulPointXYZ meshMW center) ∧
    (∀ (S0 R : Mat4) (rel : V3), S0.det ≠ 0 →
      skinnedRelativePos (R * S0) S0 rel = V3.mulDir R rel) ∧
    (∀ Vrk : Mat3,
      rotatedVrk 1 rotY90m4 1 Vrk = rotY90 * Vrk * rotY90.transpose) ∧
    (∀ Vrk : Mat3,
      rotatedVrk 1 rotX90m4 1 Vrk = rotX90.transpose * Vrk * rotX90) := by
  refine ⟨?_, ?_, ?_, ?_⟩
  · intro meshMW S0 p c h
    simp only [shaderSplatCenter, skinnedRelativePos,
      Mat4.mul_invert_self S0 h, V3.mulDir_one, V3.add_sub_cancel_self]
  · intro S0 R rel h
    simp only [skinnedRelativePos, Matrix.mul_assoc,
      Mat4.mul_invert_self S0 h, mul_one]
  · intro Vrk
    have h1 : covRotation 1 rotY90m4 1 = rotY90.transpose := by
      with_unfolding_all decide
    simp only [rotatedVrk, h1, Matrix.transpose_transpose]
  · intro Vrk
    have h2 : covRotation 1 rotX90m4 1 = rotX90 := by
      with_unfolding_all decide
    simp only [rotatedVrk, h2]

/-- Witness for `gsDeformer_scenarioC` at concrete inputs. -/
theorem gsDeformer_scenarioC_witness :
    ((1 : Mat4).det ≠ 0 ∧
      shaderSplatCenter 1 1 1 ⟨1, 2, 3⟩
          (V3.sub ⟨5, 0, 0⟩ (V3.mulPointXYZ 1 ⟨1, 2, 3⟩)) =
        V3.mulPointXYZ 1 ⟨5, 0, 0⟩) ∧
    skinnedRelativePos (rotX90m4 * 1) 1 ⟨1, 0, 0⟩ =
      V3.mulDir rotX90m4 ⟨1, 0, 0⟩ ∧
    rotatedVrk 1 rotY90m4 1 vrkC4 = rotY90 * vrkC4 * rotY90.transpose :=
  ⟨⟨by with_unfolding_all decide,
    gsDeformer_scenarioC.1 1 1 ⟨1, 2, 3⟩ ⟨5, 0, 0⟩
      (by with_unfolding_all decide)⟩,
   gsDeformer_scenarioC.2.1 1 rotX90m4 ⟨1, 0, 0⟩
     (by with_unfolding_all decide),
   gsDeformer_scenarioC.2.2.1 vrkC4⟩

theorem sqrtGt_eq_not_sqrtLe (s t : ℚ) : sqrtGt s t = !sqrtLe s t := by
  rw [sqrtGt, sqrtLe]
  by_cases h : 0 ≤ t
  · by_cases h2 : s ≤ t * t
    · rw [decide_eq_true h, decide_eq_true h2,
        decide_eq_false (not_lt.mpr h), decide_eq_false (not_lt.mpr h2)]
      rfl
    · rw [decide_eq_true h, decide_eq_false h2,
        decide_eq_false (not_lt.mpr h), decide_eq_true (lt_of_not_le h2)]
      rfl
  · rw [decide_eq_false h, decide_eq_true (lt_of_not_le h)]
    rfl

theorem bool_not_or_three (A B C : Bool) :
    (!A || !B || !C) = !(A && B && C) := by
  cases A <;> cases B <;> cases C <;> rfl

theorem jsRound_abs_lt_50 {q : ℚ} (h : |q| < 50) :
    -50 ≤ jsRound q ∧ jsRound q ≤ 50 := by
  rw [abs_lt] at h
  rw [jsRound]
  constructor
  · exact Int.le_floor.mpr (by push_cast; linarith)
  · have : ⌊q + 1/2⌋ < 51 := Int.floor_lt.mpr (by push_cast; linarith)
    omega

theorem abs_lt_half_of_sq {x z : ℚ} (h : x * x + z * z < (1/2) * (1/2)) :
    |x| < 1/2 := by
  by_contra hc
  push_neg at hc
  have h1 : (1/2 : ℚ) * (1/2) ≤ |x| * |x| := by
    nlinarith [abs_nonneg x]
  rw [abs_mul_abs_self] at h1
  nlinarith [mul_self_nonneg z]

/-- Any vertex passing the 0.5 m radius guard bins to an in-grid
key, so the `frequencyMap` lookup in the shoe filters cannot miss. -/
theorem sqrtLt_half_inGrid (v : V3)
    (hS : sqrtLt (v.x * v.x + v.z * v.z) (1/2) = true) :
    inGrid (binKey v) = true := by
  have hs : v.x * v.x + v.z * v.z < (1/2) * (1/2) := by
    simp only [sqrtLt, Bool.and_eq_true, decide_eq_true_eq] at hS
    exact hS.2
  have hx : |v.x| < 1/2 := abs_lt_half_of_sq hs
  have hz : |v.z| < 1/2 := by
    refine abs_lt_half_of_sq (x := v.z) (z := v.x) ?_
    linarith [hs]
  have hx100 : |v.x * 100| < 50 := by
    rw [abs_mul]
    rw [show |(100 : ℚ)| = 100 from by norm_num]
    nlinarith [abs_nonneg v.x]
  have hz100 : |v.z * 100| < 50 := by
    rw [abs_mul]
    rw [show |(100 : ℚ)| = 100 from by norm_num]
    nlinarith [abs_nonneg v.z]
  obtain ⟨hx1, hx2⟩ := jsRound_abs_lt_50 hx100
  obtain ⟨hz1, hz2⟩ := jsRound_abs_lt_50 hz100
  simp only [inGrid, binKey, Bool.and_eq_true, decide_eq_true_eq]
  refine ⟨⟨⟨by omega, by omega⟩, by omega⟩, by omega⟩

/-- Two throwing filters whose predicates succeed with complementary
verdicts partition the list. -/
theorem filterE_partition {α : Type} {p q : α → Except Unit Bool}
    {l : List α}
    (h : ∀ v ∈ l, ∃ b, p v = Except.ok b ∧ q v = Except.ok (!b)) :
    ∃ l1 l2, filterE p l = Except.ok l1 ∧ filterE q l = Except.ok l2 ∧
      (l1 ++ l2).Perm l := by
  induction l with
  | nil => exact ⟨[], [], rfl, rfl, List.Perm.refl _⟩
  | cons v vs ih =>
    obtain ⟨b, hp, hq⟩ := h v (List.mem_cons_self v vs)
    obtain ⟨l1, l2, h1, h2, hperm⟩ :=
      ih (fun w hw => h w (List.mem_cons_of_mem _ hw))
    cases b with
    | true =>
      refine ⟨v :: l1, l2, ?_, ?_, ?_⟩
      · simp [filterE, hp, h1]
      · simp [filterE, hq, h2]
      · simpa using hperm.cons v
    | false =>
      refine ⟨l1, v :: l2, ?_, ?_, ?_⟩
      · simp [filterE, hp, h1]
      · simp [filterE, hq, h2]
      · exact List.perm_middle.trans (hperm.cons v)

/-- Pointwise complementarity of the two shoe filters, under the
claim's premise `heights.min < heights.max`.  Also certifies that the
grid lookup, when reached, hits. -/
theorem shoePred_complement (vs : List V3) (heights : Heights)
    (hlt : heights.hmin < heights.hmax) (v : V3) :
    ∃ b, fg3Pred vs heights
        ((heights.hmax - heights.hmin) * (5/100) + heights.hmin) v =
          Except.ok b ∧
      bg4Pred vs heights
        ((heights.hmax - heights.hmin) * (5/100) + heights.hmin) v =
          Except.ok (!b) := by
  set Y := (heights.hmax - heights.hmin) * (5/100) + heights.hmin with hY
  have hmY : heights.hmin < Y := by rw [hY]; linarith
  by_cases h1 : Y ≤ -v.y
  · refine ⟨true, ?_, ?_⟩
    · rw [fg3Pred, if_pos h1]
    · rw [bg4Pred, if_neg (not_lt.mpr (by linarith)),
        if_neg (show ¬((decide (-v.y < Y) &&
            !sqrtLt (v.x * v.x + v.z * v.z) (1/2)) = true) from by
          simp only [Bool.and_eq_true, decide_eq_true_eq]
          rintro ⟨hc, -⟩
          exact absurd hc (not_lt.mpr h1)),
        if_neg (show ¬((decide (-v.y < Y) &&
            sqrtLt (v.x * v.x + v.z * v.z) (1/2)) = true) from by
          simp only [Bool.and_eq_true, decide_eq_true_eq]
          rintro ⟨hc, -⟩
          exact absurd hc (not_lt.mpr h1))]
      rfl
  · by_cases h2 : -v.y < heights.hmin
    · refine ⟨false, ?_, ?_⟩
      · rw [fg3Pred, if_neg h1,
          if_neg (show ¬((decide (heights.hmin ≤ -v.y) &&
              decide (-v.y ≤ Y) &&
              sqrtLt (v.x * v.x + v.z * v.z) (1/2)) = true) from by
            simp only [Bool.and_eq_true, decide_eq_true_eq]
            rintro ⟨⟨hc, -⟩, -⟩
            exact absurd hc (not_le.mpr h2))]
      · rw [bg4Pred, if_pos h2]
        rfl
    · have haY : -v.y < Y := not_le.mp h1
      have ham : heights.hmin ≤ -v.y := not_lt.mp h2
      cases hS : sqrtLt (v.x * v.x + v.z * v.z) (1/2) with
      | false =>
        refine ⟨false, ?_, ?_⟩
        · rw [fg3Pred, if_neg h1,
            if_neg (show ¬((decide (heights.hmin ≤ -v.y) &&
                decide (-v.y ≤ Y) &&
                sqrtLt (v.x * v.x + v.z * v.z) (1/2)) = true) from by
              simp only [Bool.and_eq_true, decide_eq_true_eq]
              rintro ⟨-, hc⟩
              rw [hS] at hc
              cases hc)]
        · rw [bg4Pred, if_neg h2,
            if_pos (show (decide (-v.y < Y) &&
                !sqrtLt (v.x * v.x + v.z * v.z) (1/2)) = true from by
              rw [hS, decide_eq_true haY]
              rfl)]
          rfl
      | true =>
        have hin : inGrid (binKey v) = true := sqrtLt_half_inGrid v hS
        refine ⟨keepFinal vs heights.hmin (binKey v), ?_, ?_⟩
        · rw [fg3Pred, if_neg h1,
            if_pos (show (decide (heights.hmin ≤ -v.y) &&
                decide (-v.y ≤ Y) &&
                sqrtLt (v.x * v.x + v.z * v.z) (1/2)) = true from by
              rw [hS, decide_eq_true ham, decide_eq_true (le_of_lt haY)]
              rfl),
            keepCell, if_pos hin]
        · rw [bg4Pred, if_neg h2,
            if_neg (show ¬((decide (-v.y < Y) &&
                !sqrtLt (v.x * v.x + v.z * v.z) (1/2)) = true) from by
              rw [hS]
              simp only [Bool.not_true, Bool.and_false]
              exact Bool.false_ne_true),
            if_pos (show (decide (-v.y < Y) &&
                sqrtLt (v.x * v.x + v.z * v.z) (1/2)) = true from by
              rw [hS, decide_eq_true haY]
              rfl),
            keepCell, if_pos hin]

/-- **C10.**  The foreground/background split of `cleanSplats` is an
exact partition.  Between building the in-band column
`filteredVertices6` / its complement `filteredVertices7`
(preprocess.js lines 620–632, from the band-phase `heightsBand`,
`cenBand`, `distXZ`) and calling `detectShoes`, the program recomputes
`heights` and `centroid` (the phase-3 `calculateHeights` /
`calculateCentroidFeet` calls), so the two stages run with independent
parameters.  For any such values, provided the recomputed
`heights.max > heights.min`: `detectShoes` on `filteredVertices6`
succeeds (every grid lookup hits), its outputs satisfy
`filteredVertices3 ++ filteredVertices4 ~ filteredVertices6`, and the
two persisted clouds — `filteredVertices3` and
`filteredVertices7 ++ filteredVertices4` — together are a permutation
of the entire input cloud: no vertex is dropped and none is
duplicated. -/
theorem cleanSplats_partition (cloud : List V3) (cenBand : Centroid)
    (distXZ : ℚ) (heightsBand : Heights) (heights : Heights)
    (cen : Centroid) (hlt : heights.hmin < heights.hmax) :
    ∃ fv3 fv4,
      detectShoes (filteredVertices6 cloud cenBand distXZ heightsBand)
          heights cen = Except.ok (fv3, fv4) ∧
      (fv3 ++ fv4).Perm (filteredVertices6 cloud cenBand distXZ heightsBand) ∧
      (fv3 ++ (filteredVertices7 cloud cenBand distXZ heightsBand ++ fv4)).Perm
        cloud := by
  obtain ⟨fv3, fv4, h3, h4, hp⟩ :=
    filterE_partition (l := filteredVertices6 cloud cenBand distXZ heightsBand)
      (fun v _ => shoePred_complement
        (shoeBand (filteredVertices6 cloud cenBand distXZ heightsBand)
          ((heights.hmax - heights.hmin) * (5/100) + heights.hmin))
        heights hlt v)
  refine ⟨fv3, fv4, ?_, hp, ?_⟩
  · rw [detectShoes]
    simp only [h3, h4]
  · have h67 : filteredVertices7 cloud cenBand distXZ heightsBand
        = cloud.filter (fun v =>
            !(sqrtLe (distXZ2 v cenBand.cx cenBand.cz) distXZ &&
              decide (heightsBand.hmin - 1/2 ≤ -v.y) &&
              decide (-v.y ≤ heightsBand.hmax + 1/2))) := by
      rw [filteredVertices7]
      refine List.filter_congr ?_
      intro v _
      have e1 : decide (-v.y < heightsBand.hmin - 1/2)
          = !decide (heightsBand.hmin - 1/2 ≤ -v.y) := by
        by_cases h : heightsBand.hmin - 1/2 ≤ -v.y
        · rw [decide_eq_true h, decide_eq_false (not_lt.mpr h)]
          rfl
        · rw [decide_eq_false h, decide_eq_true (lt_of_not_le h)]
          rfl
      have e2 : decide (heightsBand.hmax + 1/2 < -v.y)
          = !decide (-v.y ≤ heightsBand.hmax + 1/2) := by
        by_cases h : -v.y ≤ heightsBand.hmax + 1/2
        · rw [decide_eq_true h, decide_eq_false (not_lt.mpr h)]
          rfl
        · rw [decide_eq_false h, decide_eq_true (lt_of_not_le h)]
          rfl
      rw [sqrtGt_eq_not_sqrtLe, e1, e2, bool_not_or_three]
    have P2 : (filteredVertices6 cloud cenBand distXZ heightsBand ++
        filteredVertices7 cloud cenBand distXZ heightsBand).Perm cloud := by
      rw [h67, filteredVertices6]
      exact List.filter_append_perm _ cloud
    refine ((List.Perm.append_left fv3 List.perm_append_comm).trans ?_)
    rw [← List.append_assoc]
    exact (hp.append_right _).trans P2

/-- Witness for `cleanSplats_partition` on a concrete two-point cloud,
with the band-phase parameters (`hBandW`, `cenBandW`) different from
the recomputed ones handed to `detectShoes` (`hW`, `cenW`). -/
theorem cleanSplats_partition_witness :
    hW.hmin < hW.hmax ∧
    ∃ fv3 fv4,
      detectShoes (filteredVertices6 cloudW cenBandW 2 hBandW) hW cenW
          = Except.ok (fv3, fv4) ∧
      (fv3 ++ fv4).Perm (filteredVertices6 cloudW cenBandW 2 hBandW) ∧
      (fv3 ++ (filteredVertices7 cloudW cenBandW 2 hBandW ++ fv4)).Perm
        cloudW :=
  ⟨by with_unfolding_all decide,
   cleanSplats_partition cloudW cenBandW 2 hBandW hW cenW
     (by with_unfolding_all decide)⟩

end GVRM
